import Mathlib

/-!
# Verification of the Eco-MaaS fleet-simulation core (KinmenMapSim.jsx)

Shallow embedding of the simulation engine in `src/unnamed/part_002`
(`KinmenMapSim.jsx`, the authoritative revision cited by every claim).
JS floating-point numbers are modelled as exact rationals `ℚ`; JS integers
as `ℤ`.  `Math.floor` / `Math.ceil` become `Int.floor` / `Int.ceil`;
`x % m` on the non-negative quantities the code produces becomes `jsMod`
(resp. `Int.emod` once the argument is an integer); `Math.sqrt d < c`
comparisons against the non-negative constants `70` and `5` are embedded
as the equivalent squared comparisons `d < 70^2` / `d > 5^2`, so that the
whole development stays inside decidable rational arithmetic.

Every call to `Math.random()` is made explicit as a rational input in
`[0,1)` supplied through an `Rng` record, one per tick.  Calls whose
result only gates *log emission* (the `logBuffer` messages) do not touch
any state the claims mention and are omitted, as are the log buffer and
the chart-history ring themselves.

The 1 Hz snapshot broadcaster, rendering, and the React state plumbing
are outside the embedded core; `tick` is the synchronous body of
`updateGameLogic` acting on the state owned by `latestDataRef`
(pre-tick snapshot in, committed post-tick state out, with the spawn
`setStations` update and the boarding `setStations` update applied in
program order while boarding itself reads the pre-tick `currentStations`,
exactly as the source does).
-/

/-- Station / waypoint identifiers (the nine `LOCATIONS` ids). -/
inductive LocId
  | depot | juguang | zhaishan | chenggong | airport
  | taiwu | shanhou | mashan | guningtou
  deriving DecidableEq, Repr, Fintype

/-- Vehicle status: the `'moving'` / `'charging'` strings. -/
inductive VStatus
  | moving | charging
  deriving DecidableEq, Repr

/-- Policy mode: `'baseline'` vs `'rl'` (the adaptive policy). -/
inductive Mode
  | baseline | rl
  deriving DecidableEq, Repr

/-- The `aiState` strings a vehicle can carry. -/
inductive AIState
  | INIT | BASELINE | CHARGE | CRUISE | CHARGING
  deriving DecidableEq, Repr

/-- A `LOCATIONS` entry (fields used by the engine: id, coordinates,
`type === 'depot'`, popularity weight). -/
structure Loc where
  id : LocId
  x : ℚ
  y : ℚ
  isDepot : Bool
  popularity : ℚ
  deriving DecidableEq, Repr

/-- The `LOCATIONS` database (coordinates and popularity from the source). -/
def LOCATIONS : List Loc :=
  [ ⟨LocId.depot,     120, 280, true,  2/10⟩
  , ⟨LocId.juguang,   160, 360, false, 9/10⟩
  , ⟨LocId.zhaishan,  130, 450, false, 7/10⟩
  , ⟨LocId.chenggong, 380, 440, false, 6/10⟩
  , ⟨LocId.airport,   450, 350, false, 1⟩
  , ⟨LocId.taiwu,     600, 250, false, 8/10⟩
  , ⟨LocId.shanhou,   720, 120, false, 5/10⟩
  , ⟨LocId.mashan,    620, 50,  false, 6/10⟩
  , ⟨LocId.guningtou, 100, 80,  false, 5/10⟩ ]

/-- `ROUTE_SEQUENCE`: the logical route (depot appears at both ends). -/
def ROUTE_SEQUENCE : List LocId :=
  [ LocId.depot, LocId.juguang, LocId.zhaishan, LocId.chenggong, LocId.airport
  , LocId.taiwu, LocId.shanhou, LocId.mashan, LocId.guningtou, LocId.depot ]

/-- `getLoc`: look a location up by id (all route ids are present in
`LOCATIONS`; the default is never reached). -/
def getLoc (i : LocId) : Loc :=
  (LOCATIONS.find? (fun l => decide (l.id = i))).getD ⟨i, 0, 0, false, 0⟩

/-- Squared Euclidean distance; the source's `calcDist` returns the square
root, which the engine only ever compares against non-negative constants,
so comparisons are embedded on squares. -/
def calcDistSq (x1 y1 x2 y2 : ℚ) : ℚ :=
  (x2 - x1) ^ 2 + (y2 - y1) ^ 2

/-- `PLATOON_DISTANCE` (pixels). -/
def PLATOON_DISTANCE : ℚ := 70

/-- JS `a % b` for the non-negative `a` and positive `b` the engine uses
(on that domain the truncated JS remainder coincides with the floored one). -/
def jsMod (a b : ℚ) : ℚ := a - b * ⌊a / b⌋

/-- JS `Math.round` (half away from zero is half-up for the non-negative
display quantities rounded here). -/
def jsRound (q : ℚ) : ℤ := ⌊q + 1/2⌋

/-- Vehicle record (the fields of the objects built by `resetSimulation`
and rewritten by `updateGameLogic`).  `passengers`, `capacity`, and the
two `…Last` counters are JS integers, embedded as `ℤ` so that the
guarding `min`/`max` arithmetic is represented faithfully. -/
structure Vehicle where
  id : ℕ
  x : ℚ
  y : ℚ
  progress : ℚ
  battery : ℚ
  status : VStatus
  speed : ℤ
  passengers : ℤ
  capacity : ℤ
  dragCoeff : ℚ
  power : ℤ
  platooning : Bool
  aiState : AIState
  boardedLast : ℤ
  alightedLast : ℤ
  deriving DecidableEq, Repr

/-- Station state (a `LOCATIONS` entry plus `queue` / `totalServed`). -/
structure Station where
  id : LocId
  x : ℚ
  y : ℚ
  isDepot : Bool
  popularity : ℚ
  queue : ℤ
  totalServed : ℤ
  deriving DecidableEq, Repr

/-- Fleet metrics accumulators (`metrics` minus the embedded `gridInfo`,
which is recomputed from scratch each tick and feeds back into nothing;
it is modelled by the stand-alone grid functions below). -/
structure Metrics where
  totalEnergy : ℚ
  totalEnergyBaseline : ℚ
  totalServed : ℤ
  totalDist : ℚ
  platoonDist : ℚ
  emptyDist : ℚ
  totalWaitTime : ℚ
  deriving DecidableEq, Repr

/-- The state owned by the stepper: simulated clock (minutes), fleet,
stations, metrics. -/
structure SimState where
  gameTime : ℚ
  vehicles : List Vehicle
  stations : List Station
  metrics : Metrics
  deriving DecidableEq, Repr

/-- One tick's worth of `Math.random()` draws: the global spawn gate, the
per-station spawn gate, and the per-vehicle alighting fraction (keyed by
vehicle id). -/
structure Rng where
  spawnGlobal : ℚ
  spawnStation : LocId → ℚ
  alight : ℕ → ℚ

/-- All draws of a tick lie in `[0,1)`, as `Math.random()` guarantees. -/
def ValidRng (r : Rng) : Prop :=
  (0 ≤ r.spawnGlobal ∧ r.spawnGlobal < 1) ∧
  (∀ i, 0 ≤ r.spawnStation i ∧ r.spawnStation i < 1) ∧
  (∀ n, 0 ≤ r.alight n ∧ r.alight n < 1)

/-- `STATION_WEIGHTS` (with the `'default'` fallback inlined). -/
def stationWeight : LocId → ℚ
  | LocId.airport => 2
  | LocId.depot => 3/2
  | LocId.mashan => 8/10
  | LocId.taiwu => 1/2
  | _ => 1

/-- Position interpolation along `ROUTE_SEQUENCE` (the "移動插值" block):
integer part of `progress` (mod route length) picks the current waypoint,
`Math.ceil` picks the next, the fractional part is the lerp weight. -/
def positionAt (p : ℚ) : ℚ × ℚ :=
  let routeLen : ℤ := 10
  let currIdx := (⌊p⌋ % routeLen).toNat
  let nextIdx := (⌈p⌉ % routeLen).toNat
  let currLoc := getLoc (ROUTE_SEQUENCE.getD currIdx LocId.depot)
  let nextLoc := getLoc (ROUTE_SEQUENCE.getD nextIdx LocId.depot)
  let segProg := p - ⌊p⌋
  (currLoc.x + (nextLoc.x - currLoc.x) * segProg,
   currLoc.y + (nextLoc.y - currLoc.y) * segProg)

/-- The current waypoint (origin of the segment `progress` lies on); its
id drives the terrain slowdown and the platooning-free depot check. -/
def currLocOf (p : ℚ) : Loc :=
  getLoc (ROUTE_SEQUENCE.getD ((⌊p⌋ % 10).toNat) LocId.depot)

/-- The per-tick AI decision (`aiAction`): fixed in baseline mode,
battery-thresholded (25%) in adaptive mode. -/
def jsAiAction (mode : Mode) (battery : ℚ) : AIState :=
  if mode = Mode.baseline then AIState.BASELINE
  else if battery < 25 then AIState.CHARGE else AIState.CRUISE

/-- Platooning detection for a vehicle whose freshly derived position is
`(x, y)`: some *other* vehicle's stored position lies strictly inside the
`(5, PLATOON_DISTANCE)` distance band (squared comparison), and only the
adaptive (`rl`) mode enables it. -/
def isPlatoonOf (mode : Mode) (fleet : List Vehicle) (vid : ℕ) (x y : ℚ) : Bool :=
  decide (mode = Mode.rl) &&
    fleet.any (fun o =>
      decide (o.id ≠ vid ∧
        calcDistSq x y o.x o.y < PLATOON_DISTANCE ^ 2 ∧
        calcDistSq x y o.x o.y > 5 ^ 2))

/-- The station's current queue as boarding reads it: `station.queue` for
the station found by id, `0` when the lookup misses (a missing station
also fails the JS truthiness guard, so `0` gives the same behaviour). -/
def stationQueueOf (stations : List Station) (lid : LocId) : ℤ :=
  ((stations.find? (fun s => decide (s.id = lid))).map Station.queue).getD 0

/-- Alighting count: `Math.floor(Math.random() * (passengers * 0.4))`. -/
def alightCount (rA : ℚ) (passengers : ℤ) : ℤ :=
  ⌊rA * ((passengers : ℚ) * (4/10))⌋

/-- The stop reached when the integer part of progress lands on `⌊p⌋`
(`ROUTE_SEQUENCE[Math.floor(newProgress) % routeLen]`). -/
def stopOf (p : ℚ) : LocId :=
  ROUTE_SEQUENCE.getD ((⌊p⌋ % 10).toNat) LocId.depot

/-- Instantaneous power: aerodynamic term plus fixed base load, scaled by
the passenger-mass factor (`(0.5 * drag * v³ + basePower) * massFactor`). -/
def instantPowerOf (drag vel basePower massFactor : ℚ) : ℚ :=
  (1/2 * drag * vel ^ 3 + basePower) * massFactor

/-- Energy drawn in one tick: instantaneous power times the `0.002`
tick-duration conversion constant. -/
def energyOf (drag vel basePower massFactor : ℚ) : ℚ :=
  instantPowerOf drag vel basePower massFactor * (2/1000)

/-- Base speed for this tick: platooning boost, then terrain slowdown on
the two steep segments (origin waypoint `taiwu` or `zhaishan`). -/
def baseSpeedOf (plat : Bool) (currId : LocId) : ℚ :=
  let s : ℚ := if plat then 5/1000 else 4/1000
  if currId = LocId.taiwu ∨ currId = LocId.zhaishan then s * (7/10) else s

/-- The per-vehicle contribution to this tick's cycle accumulators, plus
the station-boarding update it registered (`stationUpdates`). -/
structure VDelta where
  energy : ℚ
  energyBaseline : ℚ
  dist : ℚ
  platoonD : ℚ
  emptyD : ℚ
  served : ℤ
  board : Option (LocId × ℤ)
  deriving DecidableEq, Repr

/-- The vehicle map body of `updateGameLogic`, with the tick's `aiAction`
abstracted as the argument `act` (the source computes it at the top of
the body and uses it in exactly one place, the `aiState` field of the
moving return).  `fleet` / `stations` are the pre-tick snapshots
(`currentVehicles` / `currentStations`); `rA` is this vehicle's alighting
draw. -/
def stepVehicleA (act : AIState) (mode : Mode) (fleet : List Vehicle)
    (stations : List Station) (rA : ℚ) (v : Vehicle) : Vehicle × VDelta :=
  if v.status = VStatus.charging then
    -- A. Charging: +0.8% per tick, resume service at the 95% mark.
    let battery := v.battery + 8/10
    let status := if battery ≥ 95 then VStatus.moving else VStatus.charging
    ({ v with battery := battery, speed := 0, power := -50,
              status := status, aiState := AIState.CHARGING },
     ⟨0, 0, 0, 0, 0, 0, none⟩)
  else
    -- B. Path interpolation.
    let pos := positionAt v.progress
    let x := pos.1
    let y := pos.2
    let currLoc := currLocOf v.progress
    -- Dual-track energy: platooning detection, shared parameters.
    let isPlat := isPlatoonOf mode fleet v.id x y
    let baseSpeed := baseSpeedOf isPlat currLoc.id
    let simulatedV := baseSpeed * 150
    let massFactor := 1 + (v.passengers : ℚ) * (5/1000)
    let basePower : ℚ := 1/2
    -- Actual draw (platooning-aware drag) and counterfactual draw
    -- (always the solo drag 0.8), same velocity / mass factor / base power.
    let currentDragCoeff : ℚ := if isPlat then 3/10 else 8/10
    let instPower := instantPowerOf currentDragCoeff simulatedV basePower massFactor
    let energyConsumed := energyOf currentDragCoeff simulatedV basePower massFactor
    let energyConsumedBaseline := energyOf (8/10) simulatedV basePower massFactor
    let distMoved := baseSpeed * 100
    let battery1 := v.battery - energyConsumed
    -- D. Boarding / alighting at an integer-progress crossing.
    let newProgress := v.progress + baseSpeed
    let crossed : Bool := decide (⌊newProgress⌋ > ⌊v.progress⌋)
    let stopId := stopOf newProgress
    let forcedCharge : Bool :=
      crossed && decide (stopId = LocId.depot ∧ battery1 < 30 ∧ mode = Mode.rl)
    let status1 := if forcedCharge then VStatus.charging else VStatus.moving
    let exchanging : Bool := crossed && !forcedCharge
    let alight0 : ℤ := alightCount rA v.passengers
    let alighted : ℤ := if exchanging then alight0 else v.alightedLast
    let p1 : ℤ :=
      if forcedCharge then 0
      else if exchanging then v.passengers - alight0
      else v.passengers
    let stationQ : ℤ := stationQueueOf stations stopId
    let hasQueue : Bool := decide ((0 : ℤ) < stationQ)
    let boarded : ℤ :=
      if exchanging && hasQueue then min stationQ (v.capacity - p1) else 0
    let p2 : ℤ := if exchanging && hasQueue then p1 + boarded else p1
    let currentBoarded : ℤ := if exchanging then boarded else v.boardedLast
    let boardReg : Option (LocId × ℤ) :=
      if exchanging && hasQueue then some (stopId, boarded) else none
    let servedD : ℤ := if exchanging && hasQueue then boarded else 0
    ({ v with x := x, y := y, progress := newProgress,
              battery := max 0 battery1, status := status1,
              platooning := isPlat, dragCoeff := currentDragCoeff,
              speed := jsRound (baseSpeed * 10000), power := jsRound instPower,
              passengers := p2, aiState := act,
              boardedLast := currentBoarded, alightedLast := alighted },
     ⟨energyConsumed, energyConsumedBaseline, distMoved,
      if isPlat then distMoved else 0,
      if v.passengers = 0 then distMoved else 0,
      servedD, boardReg⟩)

/-- The vehicle update exactly as the source runs it: the policy's
`aiAction` feeds the `aiState` field and nothing else. -/
def stepVehicle (mode : Mode) (fleet : List Vehicle) (stations : List Station)
    (rA : ℚ) (v : Vehicle) : Vehicle × VDelta :=
  stepVehicleA (jsAiAction mode v.battery) mode fleet stations rA v

/-- Passenger spawning ("Traffic Flow Control"): one global Bernoulli gate
(rush-hour dependent rate), then a per-station popularity-weighted gate,
queue hard-capped at 30, depot skipped. -/
def spawnStep (r : Rng) (hour : ℤ) (stations : List Station) : List Station :=
  let isRushHour := (7 ≤ hour ∧ hour ≤ 9) ∨ (17 ≤ hour ∧ hour ≤ 19)
  let spawnRate : ℚ := if isRushHour then 3/100 else 5/1000
  if r.spawnGlobal < spawnRate then
    stations.map fun s =>
      if s.isDepot then s
      else if r.spawnStation s.id < s.popularity * stationWeight s.id ∧ s.queue < 30
      then { s with queue := s.queue + 1 } else s
  else stations

/-- Total boarded passengers registered for a station this tick
(`stationUpdates[stopId]` summed over the vehicle loop). -/
def boardTotal (ds : List VDelta) (lid : LocId) : ℤ :=
  (ds.map fun d =>
    match d.board with
    | some (l, b) => if l = lid then b else 0
    | none => 0).sum

/-- The batched station update for one station: a station with a
(JS-truthy, i.e. non-zero) registered total has its queue decremented
with a floor of 0 and its `totalServed` incremented. -/
def applyBoardingTo (ds : List VDelta) (s : Station) : Station :=
  let b := boardTotal ds s.id
  if b ≠ 0 then { s with queue := max 0 (s.queue - b), totalServed := s.totalServed + b }
  else s

/-- Apply the batched station update to every station. -/
def applyBoarding (ds : List VDelta) (stations : List Station) : List Station :=
  stations.map (applyBoardingTo ds)

/-- One full tick of `updateGameLogic` on the committed state: clock +0.5
minutes, passenger spawning, the per-vehicle physics/boarding loop
(reading pre-tick snapshots), the batched station update, and the metrics
fold (wait-time delta = pre-tick queue sum × 0.5). -/
def tick (mode : Mode) (r : Rng) (s : SimState) : SimState :=
  let newTime := s.gameTime + 1/2
  let currentHour : ℤ := ⌊jsMod (newTime / 60) 24⌋
  let stations1 := spawnStep r currentHour s.stations
  let results := s.vehicles.map fun v =>
    stepVehicle mode s.vehicles s.stations (r.alight v.id) v
  let nextVehicles := results.map Prod.fst
  let ds := results.map Prod.snd
  let stations2 := applyBoarding ds stations1
  let waitDelta : ℚ := ((s.stations.map Station.queue).sum : ℚ) * (1/2)
  { gameTime := newTime
    vehicles := nextVehicles
    stations := stations2
    metrics :=
      { totalEnergy := s.metrics.totalEnergy + (ds.map VDelta.energy).sum
        totalEnergyBaseline :=
          s.metrics.totalEnergyBaseline + (ds.map VDelta.energyBaseline).sum
        totalServed := s.metrics.totalServed + (ds.map VDelta.served).sum
        totalDist := s.metrics.totalDist + (ds.map VDelta.dist).sum
        platoonDist := s.metrics.platoonDist + (ds.map VDelta.platoonD).sum
        emptyDist := s.metrics.emptyDist + (ds.map VDelta.emptyD).sum
        totalWaitTime := s.metrics.totalWaitTime + waitDelta } }

/-- `resetSimulation`: six vehicles at the depot with staggered progress
(`i * 0.6`) and battery (`95 − 5 i`), empty stations, clock 08:00,
zeroed accumulators. -/
def resetState : SimState :=
  { gameTime := 480
    vehicles := (List.range 6).map fun i =>
      { id := i, x := 120, y := 280, progress := (i : ℚ) * (6/10)
        battery := 95 - (i : ℚ) * 5, status := VStatus.moving, speed := 0
        passengers := 0, capacity := 20, dragCoeff := 8/10, power := 0
        platooning := false, aiState := AIState.INIT
        boardedLast := 0, alightedLast := 0 }
    stations := LOCATIONS.map fun l =>
      { id := l.id, x := l.x, y := l.y, isDepot := l.isDepot
        popularity := l.popularity, queue := 0, totalServed := 0 }
    metrics := ⟨0, 0, 0, 0, 0, 0, 0⟩ }

/-- A run: fold `tick` over a per-tick list of (policy mode, RNG draws);
the mode is listed per tick because the operator may toggle it between
ticks. -/
def runFrom (s : SimState) : List (Mode × Rng) → SimState
  | [] => s
  | (m, r) :: tr => runFrom (tick m r s) tr

/-- A run started from the reset state. -/
def run (tr : List (Mode × Rng)) : SimState := runFrom resetState tr

/-- Every tick's draws are valid `Math.random()` outputs. -/
def ValidTrace (tr : List (Mode × Rng)) : Prop :=
  ∀ p ∈ tr, ValidRng p.2

/-! ### Named views of the moving-vehicle physics

These re-express the `let`-bound quantities of `stepVehicleA`'s moving
branch so that theorems can speak about them; each agrees definitionally
with the corresponding `let` in the step function. -/

/-- Whether a moving vehicle platoons this tick. -/
def movingPlat (mode : Mode) (fleet : List Vehicle) (v : Vehicle) : Bool :=
  isPlatoonOf mode fleet v.id (positionAt v.progress).1 (positionAt v.progress).2

/-- This tick's base speed of a moving vehicle. -/
def movingBaseSpeed (mode : Mode) (fleet : List Vehicle) (v : Vehicle) : ℚ :=
  baseSpeedOf (movingPlat mode fleet v) (currLocOf v.progress).id

/-- This tick's simulated velocity (`baseSpeed * 150`). -/
def movingVel (mode : Mode) (fleet : List Vehicle) (v : Vehicle) : ℚ :=
  movingBaseSpeed mode fleet v * 150

/-- The passenger-load mass factor (`1 + passengers * 0.005`). -/
def massFactorOf (v : Vehicle) : ℚ :=
  1 + (v.passengers : ℚ) * (5/1000)

/-- This tick's drag coefficient (low while platooning, high solo). -/
def movingDrag (mode : Mode) (fleet : List Vehicle) (v : Vehicle) : ℚ :=
  if movingPlat mode fleet v then 3/10 else 8/10

/-- This tick's actual energy draw of a moving vehicle. -/
def movingEnergy (mode : Mode) (fleet : List Vehicle) (v : Vehicle) : ℚ :=
  energyOf (movingDrag mode fleet v) (movingVel mode fleet v) (1/2) (massFactorOf v)

/-- This tick's counterfactual (never-platooning) energy draw. -/
def movingEnergyBaseline (mode : Mode) (fleet : List Vehicle) (v : Vehicle) : ℚ :=
  energyOf (8/10) (movingVel mode fleet v) (1/2) (massFactorOf v)

/-- The simulated hour used by the spawn logic of the tick starting from
state `s` (`Math.floor((newTime / 60) % 24)`). -/
def tickHour (s : SimState) : ℤ :=
  ⌊jsMod ((s.gameTime + 1/2) / 60) 24⌋

/-- The new vehicle list a tick produces. -/
def tickVehicles (mode : Mode) (r : Rng) (s : SimState) : List Vehicle :=
  s.vehicles.map fun v =>
    (stepVehicle mode s.vehicles s.stations (r.alight v.id) v).1

/-- The per-vehicle deltas a tick produces. -/
def tickDeltas (mode : Mode) (r : Rng) (s : SimState) : List VDelta :=
  s.vehicles.map fun v =>
    (stepVehicle mode s.vehicles s.stations (r.alight v.id) v).2

/-! ### Microgrid model

The grid block of `updateGameLogic` computes `solarOutput` and `baseLoad`
from `Math.sin` / `Math.exp`; those transcendental library functions (and
`Math.PI`) are abstracted as the record `JsMath`, and every fact below
holds for *any* interpretation of them.  The computed grid signal is
written into `metrics.gridInfo` and read back by nothing in the engine,
so it is embedded as this stand-alone pure function. -/

/-- Abstract interpretation of the JS math library pieces the grid uses. -/
structure JsMath where
  sin : ℚ → ℚ
  exp : ℚ → ℚ
  pi : ℚ

/-- Grid status strings. -/
inductive GridStatus
  | GREEN | NORMAL | PEAK
  deriving DecidableEq, Repr

/-- The grid signal: solar output, net load, dynamic price, status. -/
structure GridState where
  solar : ℚ
  load : ℚ
  price : ℚ
  status : GridStatus
  deriving DecidableEq, Repr

/-- Hour of day from the minute clock (`(newTime / 60) % 24`). -/
def hourOfDay (t : ℚ) : ℚ := jsMod (t / 60) 24

/-- Solar output: zero outside the 6:00–18:00 window, a sine-shaped
curve scaled to `[0,100]` inside it. -/
def solarOutputAt (M : JsMath) (h : ℚ) : ℚ :=
  if 6 < h ∧ h < 18 then M.sin (((h - 6) / 12) * M.pi) * 100 else 0

/-- Base load: diurnal oscillation plus the Gaussian evening peak at 19:00. -/
def baseLoadAt (M : JsMath) (h : ℚ) : ℚ :=
  50 + 20 * M.sin (((h - 8) / 24) * (2 * M.pi))
     + 30 * M.exp (-((h - 19) ^ 2) / 4)

/-- Net load: demand minus 0.6 × solar, floored at 20. -/
def netLoadOf (base solar : ℚ) : ℚ :=
  max 20 (base - solar * (6/10))

/-- Dynamic price tiers on net load. -/
def gridPriceOf (net : ℚ) : ℚ :=
  if net < 40 then 9/5 else if net > 80 then 13/2 else 3

/-- Status tiers on net load. -/
def gridStatusOf (net : ℚ) : GridStatus :=
  if net < 40 then GridStatus.GREEN
  else if net > 80 then GridStatus.PEAK
  else GridStatus.NORMAL

/-- The full grid signal at clock time `t` (minutes). -/
def gridStateAt (M : JsMath) (t : ℚ) : GridState :=
  let h := hourOfDay t
  let sol := solarOutputAt M h
  let base := baseLoadAt M h
  let net := netLoadOf base sol
  ⟨sol, net, gridPriceOf net, gridStatusOf net⟩

/-! ### Derived ratio KPIs

Recomputed on demand from the accumulators (the side panel's 組隊率 /
空車率 / 效率 / 等待 boxes), each guarded by a zero test on its
denominator; `toFixed` display rounding is omitted. -/

/-- Platoon rate in percent (`platoonDist / totalDist * 100`, else 0). -/
def platoonRatePct (m : Metrics) : ℚ :=
  if m.totalDist > 0 then m.platoonDist / m.totalDist * 100 else 0

/-- Empty-run rate in percent (`emptyDist / totalDist * 100`, else 0). -/
def emptyRatePct (m : Metrics) : ℚ :=
  if m.totalDist > 0 then m.emptyDist / m.totalDist * 100 else 0

/-- Service efficiency (`totalServed / totalEnergy`, else 0). -/
def efficiencyKPI (m : Metrics) : ℚ :=
  if m.totalEnergy > 0 then (m.totalServed : ℚ) / m.totalEnergy else 0

/-- Mean-wait proxy (`totalWaitTime / totalServed`, else 0). -/
def waitKPI (m : Metrics) : ℚ :=
  if m.totalServed > 0 then m.totalWaitTime / (m.totalServed : ℚ) else 0

/-! ### Basic facts about the physics quantities -/

theorem baseSpeedOf_pos (plat : Bool) (c : LocId) : 0 < baseSpeedOf plat c := by
  unfold baseSpeedOf
  split_ifs <;> norm_num

theorem baseSpeedOf_le (plat : Bool) (c : LocId) : baseSpeedOf plat c ≤ 5/1000 := by
  unfold baseSpeedOf
  split_ifs <;> norm_num

theorem energyOf_nonneg {d vel bp m : ℚ} (hd : 0 ≤ d) (hv : 0 ≤ vel)
    (hb : 0 ≤ bp) (hm : 0 ≤ m) : 0 ≤ energyOf d vel bp m := by
  unfold energyOf instantPowerOf
  positivity

theorem energyOf_mono_drag {d1 d2 vel bp m : ℚ} (hd : d1 ≤ d2) (hv : 0 ≤ vel)
    (hm : 0 ≤ m) : energyOf d1 vel bp m ≤ energyOf d2 vel bp m := by
  unfold energyOf instantPowerOf
  nlinarith [mul_nonneg (mul_nonneg (sub_nonneg.2 hd) (pow_nonneg hv 3)) hm]

theorem movingVel_nonneg (mode : Mode) (fleet : List Vehicle) (v : Vehicle) :
    0 ≤ movingVel mode fleet v := by
  unfold movingVel movingBaseSpeed
  have := baseSpeedOf_pos (movingPlat mode fleet v) (currLocOf v.progress).id
  nlinarith

theorem movingDrag_nonneg (mode : Mode) (fleet : List Vehicle) (v : Vehicle) :
    0 ≤ movingDrag mode fleet v := by
  unfold movingDrag
  split_ifs <;> norm_num

theorem movingDrag_le (mode : Mode) (fleet : List Vehicle) (v : Vehicle) :
    movingDrag mode fleet v ≤ 8/10 := by
  unfold movingDrag
  split_ifs <;> norm_num

theorem massFactorOf_nonneg {v : Vehicle} (h : 0 ≤ v.passengers) :
    0 ≤ massFactorOf v := by
  unfold massFactorOf
  have : (0 : ℚ) ≤ (v.passengers : ℚ) := by exact_mod_cast h
  nlinarith

theorem movingEnergy_nonneg {mode fleet v} (h : 0 ≤ v.passengers) :
    0 ≤ movingEnergy mode fleet v :=
  energyOf_nonneg (movingDrag_nonneg mode fleet v) (movingVel_nonneg mode fleet v)
    (by norm_num) (massFactorOf_nonneg h)

theorem movingEnergy_le_baseline {mode fleet v} (h : 0 ≤ v.passengers) :
    movingEnergy mode fleet v ≤ movingEnergyBaseline mode fleet v :=
  energyOf_mono_drag (movingDrag_le mode fleet v) (movingVel_nonneg mode fleet v)
    (massFactorOf_nonneg h)

theorem alightCount_nonneg {rA : ℚ} {p : ℤ} (hr : 0 ≤ rA) (hp : 0 ≤ p) :
    0 ≤ alightCount rA p := by
  unfold alightCount
  have hp' : (0 : ℚ) ≤ (p : ℚ) := by exact_mod_cast hp
  exact Int.floor_nonneg.2 (mul_nonneg hr (by nlinarith))

theorem alightCount_le {rA : ℚ} {p : ℤ} (_hr : 0 ≤ rA) (hr1 : rA < 1) (hp : 0 ≤ p) :
    alightCount rA p ≤ p := by
  unfold alightCount
  have hp' : (0 : ℚ) ≤ (p : ℚ) := by exact_mod_cast hp
  calc ⌊rA * ((p : ℚ) * (4/10))⌋ ≤ ⌊(p : ℚ)⌋ := by
        apply Int.floor_le_floor
        nlinarith
    _ = p := Int.floor_intCast p

/-! ### Shape of the two step branches -/

theorem stepVehicleA_charging (a : AIState) (mode : Mode) (fleet : List Vehicle)
    (stations : List Station) (rA : ℚ) {v : Vehicle}
    (h : v.status = VStatus.charging) :
    stepVehicleA a mode fleet stations rA v =
      ({ v with battery := v.battery + 8/10, speed := 0, power := -50,
                status := if v.battery + 8/10 ≥ 95 then VStatus.moving
                          else VStatus.charging,
                aiState := AIState.CHARGING },
       ⟨0, 0, 0, 0, 0, 0, none⟩) := by
  unfold stepVehicleA
  rw [if_pos h]

/-- New progress of a moving vehicle. -/
def movingNewProgress (mode : Mode) (fleet : List Vehicle) (v : Vehicle) : ℚ :=
  v.progress + movingBaseSpeed mode fleet v

/-- Whether the tick crosses an integer-progress boundary (station arrival). -/
def movingCrossed (mode : Mode) (fleet : List Vehicle) (v : Vehicle) : Bool :=
  decide (⌊movingNewProgress mode fleet v⌋ > ⌊v.progress⌋)

/-- The stop reached on a crossing. -/
def movingStop (mode : Mode) (fleet : List Vehicle) (v : Vehicle) : LocId :=
  stopOf (movingNewProgress mode fleet v)

/-- The battery level after this tick's (actual) energy draw. -/
def movingBattery1 (mode : Mode) (fleet : List Vehicle) (v : Vehicle) : ℚ :=
  v.battery - movingEnergy mode fleet v

/-- The forced depot-charging condition: depot stop, post-draw battery
below 30, adaptive mode. -/
def movingForced (mode : Mode) (fleet : List Vehicle) (v : Vehicle) : Bool :=
  movingCrossed mode fleet v &&
    decide (movingStop mode fleet v = LocId.depot ∧
            movingBattery1 mode fleet v < 30 ∧ mode = Mode.rl)

/-- The moving branch of the vehicle update, phrased through the named
views; definitionally equal to the branch inside `stepVehicleA`. -/
def movingResult (a : AIState) (mode : Mode) (fleet : List Vehicle)
    (stations : List Station) (rA : ℚ) (v : Vehicle) : Vehicle × VDelta :=
  let plat := movingPlat mode fleet v
  let bs := movingBaseSpeed mode fleet v
  let np := movingNewProgress mode fleet v
  let crossed := movingCrossed mode fleet v
  let stop := movingStop mode fleet v
  let b1 := movingBattery1 mode fleet v
  let forced := movingForced mode fleet v
  let exch := crossed && !forced
  let a0 := alightCount rA v.passengers
  let q := stationQueueOf stations stop
  let hasQ : Bool := decide ((0 : ℤ) < q)
  let p1 := if forced then 0 else if exch then v.passengers - a0 else v.passengers
  let boarded := if exch && hasQ then min q (v.capacity - p1) else 0
  ({ v with x := (positionAt v.progress).1, y := (positionAt v.progress).2,
            progress := np, battery := max 0 b1,
            status := if forced then VStatus.charging else VStatus.moving,
            platooning := plat, dragCoeff := movingDrag mode fleet v,
            speed := jsRound (bs * 10000),
            power := jsRound (instantPowerOf (movingDrag mode fleet v)
              (movingVel mode fleet v) (1/2) (massFactorOf v)),
            passengers := if exch && hasQ then p1 + boarded else p1,
            aiState := a,
            boardedLast := if exch then boarded else v.boardedLast,
            alightedLast := if exch then a0 else v.alightedLast },
   ⟨movingEnergy mode fleet v, movingEnergyBaseline mode fleet v, bs * 100,
    if plat then bs * 100 else 0,
    if v.passengers = 0 then bs * 100 else 0,
    if exch && hasQ then boarded else 0,
    if exch && hasQ then some (stop, boarded) else none⟩)

theorem stepVehicleA_moving (a : AIState) (mode : Mode) (fleet : List Vehicle)
    (stations : List Station) (rA : ℚ) {v : Vehicle}
    (h : v.status = VStatus.moving) :
    stepVehicleA a mode fleet stations rA v =
      movingResult a mode fleet stations rA v := by
  unfold stepVehicleA
  rw [if_neg (by simp [h])]
  rfl


theorem bandLeft {a b : Bool} (h : (a && b) = true) : a = true := by
  simp only [Bool.and_eq_true] at h
  exact h.1

theorem bandRight {a b : Bool} (h : (a && b) = true) : b = true := by
  simp only [Bool.and_eq_true] at h
  exact h.2

/-! ### Structural invariants (§7: prevented structurally by the
clamping `min`/`max` guards) -/

/-- Per-vehicle invariant: battery within bounds (charging vehicles are
strictly below the 95% high-water mark, so one more `+0.8` tick cannot
push past 96), passengers within `[0, capacity]`. -/
def VehInv (v : Vehicle) : Prop :=
  0 ≤ v.battery ∧ v.battery ≤ 96 ∧
  (v.status = VStatus.charging → v.battery < 95) ∧
  0 ≤ v.passengers ∧ v.passengers ≤ v.capacity

/-- Per-delta invariant: non-negative contributions, actual energy below
the counterfactual, platoon/empty distance below total distance, and the
registered boarding count equal to the served count. -/
def DeltaInv (d : VDelta) : Prop :=
  0 ≤ d.energy ∧ d.energy ≤ d.energyBaseline ∧ 0 ≤ d.dist ∧
  0 ≤ d.platoonD ∧ d.platoonD ≤ d.dist ∧
  0 ≤ d.emptyD ∧ d.emptyD ≤ d.dist ∧
  0 ≤ d.served ∧ (∀ l b, d.board = some (l, b) → b = d.served)

/-- Metrics invariant. -/
def MetInv (m : Metrics) : Prop :=
  0 ≤ m.totalEnergy ∧ m.totalEnergy ≤ m.totalEnergyBaseline ∧
  0 ≤ m.totalServed ∧ 0 ≤ m.totalDist ∧
  0 ≤ m.platoonDist ∧ m.platoonDist ≤ m.totalDist ∧
  0 ≤ m.emptyDist ∧ m.emptyDist ≤ m.totalDist ∧ 0 ≤ m.totalWaitTime

/-- Full state invariant. -/
def StateInv (s : SimState) : Prop :=
  (∀ v ∈ s.vehicles, VehInv v) ∧
  (∀ st ∈ s.stations, 0 ≤ st.queue) ∧
  MetInv s.metrics

theorem stepVehicleA_inv (a : AIState) (mode : Mode) (fleet : List Vehicle)
    (stations : List Station) {rA : ℚ} {v : Vehicle}
    (hv : VehInv v) (hr0 : 0 ≤ rA) (hr1 : rA < 1) :
    VehInv (stepVehicleA a mode fleet stations rA v).1 ∧
    DeltaInv (stepVehicleA a mode fleet stations rA v).2 := by
  obtain ⟨hb0, hb96, hbc, hp0, hpc⟩ := hv
  cases hst : v.status with
  | charging =>
    rw [stepVehicleA_charging a mode fleet stations rA hst]
    have h95 := hbc hst
    refine ⟨⟨by dsimp only; linarith, by dsimp only; linarith, ?_, hp0, hpc⟩, ?_⟩
    · dsimp only
      intro hc
      by_cases hge : v.battery + 8/10 ≥ 95
      · rw [if_pos hge] at hc
        exact absurd hc (by simp)
      · linarith [not_le.mp hge]
    · refine ⟨le_refl _, le_refl _, le_refl _, le_refl _, le_refl _,
        le_refl _, le_refl _, le_refl _, ?_⟩
      intro l b hb
      exact absurd hb (by simp)
  | moving =>
    rw [stepVehicleA_moving a mode fleet stations rA hst]
    dsimp only [movingResult]
    have hE0 : 0 ≤ movingEnergy mode fleet v := movingEnergy_nonneg hp0
    have hEB : movingEnergy mode fleet v ≤ movingEnergyBaseline mode fleet v :=
      movingEnergy_le_baseline hp0
    have hbs : 0 < movingBaseSpeed mode fleet v := baseSpeedOf_pos _ _
    have hA0 : 0 ≤ alightCount rA v.passengers := alightCount_nonneg hr0 hp0
    have hAle : alightCount rA v.passengers ≤ v.passengers :=
      alightCount_le hr0 hr1 hp0
    have hdist : (0 : ℚ) ≤ movingBaseSpeed mode fleet v * 100 := by nlinarith
    have hbatQ : max 0 (movingBattery1 mode fleet v) ≤ 96 := by
      refine max_le (by norm_num) ?_
      unfold movingBattery1
      linarith
    have hbatC : movingForced mode fleet v = true →
        max 0 (movingBattery1 mode fleet v) < 95 := by
      intro hF
      have h30 : movingBattery1 mode fleet v < 30 :=
        (of_decide_eq_true (bandRight hF)).2.1
      exact max_lt (by norm_num) (by linarith)
    cases hF : movingForced mode fleet v with
    | true =>
      -- forced depot charging: exchange is skipped, passengers cleared
      simp only [hF, Bool.not_true, Bool.and_false, Bool.false_and, if_true,
        if_false, Bool.false_eq_true]
      refine ⟨⟨?_, ?_, ?_, ?_, ?_⟩, ?_, ?_, ?_, ?_, ?_, ?_, ?_, ?_, ?_⟩ <;>
        dsimp only
      · exact le_max_left _ _
      · exact hbatQ
      · exact fun _ => hbatC hF
      · exact le_refl 0
      · exact le_trans hp0 hpc
      · exact hE0
      · exact hEB
      · exact hdist
      · split_ifs <;> first | exact hdist | exact le_refl _
      · split_ifs <;> first | exact hdist | exact le_refl _
      · split_ifs <;> first | exact hdist | exact le_refl _
      · split_ifs <;> first | exact hdist | exact le_refl _
      · exact le_refl 0
      · intro l b hb
        exact absurd hb (by simp)
    | false =>
      simp only [hF, Bool.not_false, Bool.and_true, if_false, Bool.false_eq_true]
      cases hX : movingCrossed mode fleet v with
      | false =>
        -- no station arrival this tick
        simp only [hX, Bool.false_and, if_false, Bool.false_eq_true]
        refine ⟨⟨?_, ?_, ?_, ?_, ?_⟩, ?_, ?_, ?_, ?_, ?_, ?_, ?_, ?_, ?_⟩ <;>
          dsimp only
        · exact le_max_left _ _
        · exact hbatQ
        · intro hc
          exact absurd hc (by simp)
        · exact hp0
        · exact hpc
        · exact hE0
        · exact hEB
        · exact hdist
        · split_ifs <;> first | exact hdist | exact le_refl _
        · split_ifs <;> first | exact hdist | exact le_refl _
        · split_ifs <;> first | exact hdist | exact le_refl _
        · split_ifs <;> first | exact hdist | exact le_refl _
        · exact le_refl 0
        · intro l b hb
          exact absurd hb (by simp)
      | true =>
        simp only [hX, Bool.true_and, if_true]
        cases hQ : (decide ((0:ℤ) < stationQueueOf stations (movingStop mode fleet v))) with
        | false =>
          -- arrival at an empty station: alighting only
          simp only [hQ, if_false, Bool.false_eq_true]
          refine ⟨⟨?_, ?_, ?_, ?_, ?_⟩, ?_, ?_, ?_, ?_, ?_, ?_, ?_, ?_, ?_⟩ <;>
            dsimp only
          · exact le_max_left _ _
          · exact hbatQ
          · intro hc
            exact absurd hc (by simp)
          · linarith
          · linarith
          · exact hE0
          · exact hEB
          · exact hdist
          · split_ifs <;> first | exact hdist | exact le_refl _
          · split_ifs <;> first | exact hdist | exact le_refl _
          · split_ifs <;> first | exact hdist | exact le_refl _
          · split_ifs <;> first | exact hdist | exact le_refl _
          · exact le_refl 0
          · intro l b hb
            exact absurd hb (by simp)
        | true =>
          -- arrival with a queue: alighting then the min-guarded boarding
          have hq : (0:ℤ) < stationQueueOf stations (movingStop mode fleet v) :=
            of_decide_eq_true hQ
          simp only [hQ, if_true]
          have hminLB : (0:ℤ) ≤ min (stationQueueOf stations (movingStop mode fleet v))
              (v.capacity - (v.passengers - alightCount rA v.passengers)) :=
            le_min (by linarith) (by linarith)
          have hminUB := min_le_right (stationQueueOf stations (movingStop mode fleet v))
            (v.capacity - (v.passengers - alightCount rA v.passengers))
          refine ⟨⟨?_, ?_, ?_, ?_, ?_⟩, ?_, ?_, ?_, ?_, ?_, ?_, ?_, ?_, ?_⟩ <;>
            dsimp only
          · exact le_max_left _ _
          · exact hbatQ
          · intro hc
            exact absurd hc (by simp)
          · linarith
          · linarith
          · exact hE0
          · exact hEB
          · exact hdist
          · split_ifs <;> first | exact hdist | exact le_refl _
          · split_ifs <;> first | exact hdist | exact le_refl _
          · split_ifs <;> first | exact hdist | exact le_refl _
          · split_ifs <;> first | exact hdist | exact le_refl _
          · exact hminLB
          · intro l b hb
            simp only [Option.some.injEq, Prod.mk.injEq] at hb
            exact hb.2.symm

/-! ### Tick-level characterizations and invariant preservation -/

theorem tick_gameTime (m : Mode) (r : Rng) (s : SimState) :
    (tick m r s).gameTime = s.gameTime + 1/2 := rfl

theorem tick_vehicles (m : Mode) (r : Rng) (s : SimState) :
    (tick m r s).vehicles = tickVehicles m r s := by
  simp only [tick, tickVehicles, List.map_map]
  rfl

theorem tick_stations (m : Mode) (r : Rng) (s : SimState) :
    (tick m r s).stations =
      applyBoarding (tickDeltas m r s) (spawnStep r (tickHour s) s.stations) := by
  simp only [tick, tickDeltas, tickHour, applyBoarding, List.map_map]
  rfl

theorem tick_metrics (m : Mode) (r : Rng) (s : SimState) :
    (tick m r s).metrics =
      { totalEnergy := s.metrics.totalEnergy + ((tickDeltas m r s).map VDelta.energy).sum
        totalEnergyBaseline :=
          s.metrics.totalEnergyBaseline + ((tickDeltas m r s).map VDelta.energyBaseline).sum
        totalServed := s.metrics.totalServed + ((tickDeltas m r s).map VDelta.served).sum
        totalDist := s.metrics.totalDist + ((tickDeltas m r s).map VDelta.dist).sum
        platoonDist := s.metrics.platoonDist + ((tickDeltas m r s).map VDelta.platoonD).sum
        emptyDist := s.metrics.emptyDist + ((tickDeltas m r s).map VDelta.emptyD).sum
        totalWaitTime := s.metrics.totalWaitTime +
          ((s.stations.map Station.queue).sum : ℚ) * (1/2) } := by
  simp only [tick, tickDeltas, List.map_map]
  rfl

theorem tickVehicles_inv (m : Mode) (r : Rng) (s : SimState)
    (hs : StateInv s) (hr : ValidRng r) :
    ∀ v ∈ tickVehicles m r s, VehInv v := by
  intro v hv
  unfold tickVehicles at hv
  rw [List.mem_map] at hv
  obtain ⟨w, hw, rfl⟩ := hv
  exact (stepVehicleA_inv _ _ _ _ (hs.1 w hw) (hr.2.2 w.id).1 (hr.2.2 w.id).2).1

theorem tickDeltas_inv (m : Mode) (r : Rng) (s : SimState)
    (hs : StateInv s) (hr : ValidRng r) :
    ∀ d ∈ tickDeltas m r s, DeltaInv d := by
  intro d hd
  unfold tickDeltas at hd
  rw [List.mem_map] at hd
  obtain ⟨w, hw, rfl⟩ := hd
  exact (stepVehicleA_inv _ _ _ _ (hs.1 w hw) (hr.2.2 w.id).1 (hr.2.2 w.id).2).2

theorem spawnStep_queue (r : Rng) (hour : ℤ) {stations : List Station}
    (h : ∀ st ∈ stations, 0 ≤ st.queue) :
    ∀ st ∈ spawnStep r hour stations, 0 ≤ st.queue := by
  intro st hst
  unfold spawnStep at hst
  dsimp only at hst
  split_ifs at hst
  all_goals
    first
      | exact h st hst
      | (rw [List.mem_map] at hst
         obtain ⟨w, hw, rfl⟩ := hst
         have := h w hw
         split_ifs <;> first | linarith | (dsimp only; linarith))

theorem boardTotal_nonneg {ds : List VDelta} (h : ∀ d ∈ ds, DeltaInv d)
    (lid : LocId) : 0 ≤ boardTotal ds lid := by
  unfold boardTotal
  apply List.sum_nonneg
  intro x hx
  rw [List.mem_map] at hx
  obtain ⟨d, hd, rfl⟩ := hx
  obtain ⟨-, -, -, -, -, -, -, hs0, hb⟩ := h d hd
  cases hbd : d.board with
  | none => simp [hbd]
  | some lb =>
    obtain ⟨l, b⟩ := lb
    have := hb l b hbd
    simp only [hbd]
    split_ifs <;> [exact this ▸ hs0; exact le_refl 0]

theorem applyBoardingTo_spec (ds : List VDelta) {st : Station}
    (h : 0 ≤ st.queue) :
    (applyBoardingTo ds st).id = st.id ∧
    (applyBoardingTo ds st).queue = max 0 (st.queue - boardTotal ds st.id) ∧
    (applyBoardingTo ds st).totalServed = st.totalServed + boardTotal ds st.id := by
  simp only [applyBoardingTo]
  split_ifs with hb
  · exact ⟨rfl, rfl, rfl⟩
  · push_neg at hb
    rw [hb]
    refine ⟨rfl, ?_, (add_zero _).symm⟩
    rw [sub_zero, max_eq_right h]

theorem applyBoardingTo_queue_nonneg (ds : List VDelta) {st : Station}
    (h : 0 ≤ st.queue) : 0 ≤ (applyBoardingTo ds st).queue := by
  rw [(applyBoardingTo_spec ds h).2.1]
  exact le_max_left _ _

theorem tick_inv {m : Mode} {r : Rng} {s : SimState}
    (hs : StateInv s) (hr : ValidRng r) : StateInv (tick m r s) := by
  obtain ⟨hveh, hstat, hmet⟩ := hs
  have hd := tickDeltas_inv m r s ⟨hveh, hstat, hmet⟩ hr
  refine ⟨?_, ?_, ?_⟩
  · rw [tick_vehicles]
    exact tickVehicles_inv m r s ⟨hveh, hstat, hmet⟩ hr
  · rw [tick_stations]
    intro st hst
    unfold applyBoarding at hst
    rw [List.mem_map] at hst
    obtain ⟨w, hw, rfl⟩ := hst
    exact applyBoardingTo_queue_nonneg _ (spawnStep_queue r (tickHour s) hstat w hw)
  · rw [tick_metrics]
    obtain ⟨hE, hEB, hTS, hTD, hPD, hPDle, hED, hEDle, hWT⟩ := hmet
    have sum_nonneg_of : ∀ (f : VDelta → ℚ), (∀ d ∈ tickDeltas m r s, 0 ≤ f d) →
        0 ≤ ((tickDeltas m r s).map f).sum := by
      intro f hf
      apply List.sum_nonneg
      intro x hx
      rw [List.mem_map] at hx
      obtain ⟨d, hd', rfl⟩ := hx
      exact hf d hd'
    have hE' := sum_nonneg_of VDelta.energy (fun d hd' => (hd d hd').1)
    have hD' := sum_nonneg_of VDelta.dist (fun d hd' => (hd d hd').2.2.1)
    have hP' := sum_nonneg_of VDelta.platoonD (fun d hd' => (hd d hd').2.2.2.1)
    have hEm' := sum_nonneg_of VDelta.emptyD (fun d hd' => (hd d hd').2.2.2.2.2.1)
    have hEle : ((tickDeltas m r s).map VDelta.energy).sum ≤
        ((tickDeltas m r s).map VDelta.energyBaseline).sum :=
      List.sum_le_sum (fun d hd' => (hd d hd').2.1)
    have hPle : ((tickDeltas m r s).map VDelta.platoonD).sum ≤
        ((tickDeltas m r s).map VDelta.dist).sum :=
      List.sum_le_sum (fun d hd' => (hd d hd').2.2.2.2.1)
    have hEmle : ((tickDeltas m r s).map VDelta.emptyD).sum ≤
        ((tickDeltas m r s).map VDelta.dist).sum :=
      List.sum_le_sum (fun d hd' => (hd d hd').2.2.2.2.2.2.1)
    have hS' : (0:ℤ) ≤ ((tickDeltas m r s).map VDelta.served).sum := by
      apply List.sum_nonneg
      intro x hx
      rw [List.mem_map] at hx
      obtain ⟨d, hd', rfl⟩ := hx
      exact (hd d hd').2.2.2.2.2.2.2.1
    have hQ' : (0:ℤ) ≤ (s.stations.map Station.queue).sum := by
      apply List.sum_nonneg
      intro x hx
      rw [List.mem_map] at hx
      obtain ⟨st, hst', rfl⟩ := hx
      exact hstat st hst'
    have hQ'' : (0:ℚ) ≤ ((s.stations.map Station.queue).sum : ℚ) := by
      exact_mod_cast hQ'
    refine ⟨by dsimp only; linarith, by dsimp only; linarith,
      by dsimp only; linarith, by dsimp only; linarith,
      by dsimp only; linarith, by dsimp only; linarith,
      by dsimp only; linarith, by dsimp only; linarith,
      by dsimp only; linarith⟩

theorem runFrom_inv : ∀ (tr : List (Mode × Rng)) (s : SimState),
    StateInv s → ValidTrace tr → StateInv (runFrom s tr) := by
  intro tr
  induction tr with
  | nil => intro s hs _; exact hs
  | cons p tr ih =>
    intro s hs htr
    obtain ⟨m, r⟩ := p
    exact ih (tick m r s) (tick_inv hs (htr _ (List.mem_cons_self _ _)))
      (fun q hq => htr q (List.mem_cons_of_mem _ hq))

theorem resetState_inv : StateInv resetState := by
  unfold StateInv VehInv MetInv
  with_unfolding_all decide

theorem run_inv {tr : List (Mode × Rng)} (h : ValidTrace tr) :
    StateInv (run tr) :=
  runFrom_inv tr resetState resetState_inv h

/-! ### Claim theorems -/

/-- C2: For every vehicle and every sequence of ticks, `battery_soc`
remains within [0,100]; mechanically, a moving vehicle's battery is
clamped below at 0 (`max 0 (battery − energy)`), a charging vehicle gains
the fixed 0.8 per tick, and it leaves CHARGING exactly when the 95%
high-water mark is reached, so 100 is never exceeded. -/
theorem C2_battery_within_bounds :
    (∀ tr : List (Mode × Rng), ValidTrace tr →
      ∀ v ∈ (run tr).vehicles, 0 ≤ v.battery ∧ v.battery ≤ 100) ∧
    (∀ (a : AIState) (mode : Mode) (fleet : List Vehicle)
        (stations : List Station) (rA : ℚ) (v : Vehicle),
      v.status = VStatus.charging →
      (stepVehicleA a mode fleet stations rA v).1.battery = v.battery + 8/10 ∧
      ((stepVehicleA a mode fleet stations rA v).1.status = VStatus.moving ↔
        95 ≤ v.battery + 8/10)) ∧
    (∀ (a : AIState) (mode : Mode) (fleet : List Vehicle)
        (stations : List Station) (rA : ℚ) (v : Vehicle),
      v.status = VStatus.moving →
      (stepVehicleA a mode fleet stations rA v).1.battery =
        max 0 (v.battery - movingEnergy mode fleet v)) := by
  refine ⟨?_, ?_, ?_⟩
  · intro tr htr v hv
    have := (run_inv htr).1 v hv
    exact ⟨this.1, by linarith [this.2.1]⟩
  · intro a mode fleet stations rA v h
    rw [stepVehicleA_charging a mode fleet stations rA h]
    refine ⟨rfl, ?_⟩
    dsimp only
    by_cases hge : v.battery + 8/10 ≥ 95
    · rw [if_pos hge]
      exact ⟨fun _ => hge, fun _ => rfl⟩
    · rw [if_neg hge]
      exact ⟨fun hc => absurd hc (by simp), fun h95 => absurd h95 hge⟩
  · intro a mode fleet stations rA v h
    rw [stepVehicleA_moving a mode fleet stations rA h]
    rfl

/-- C2 witness: the head vehicle of the (reset) fleet after the empty run
satisfies the battery bounds. -/
theorem C2_battery_within_bounds_witness :
    0 ≤ (resetState.vehicles.get ⟨0, by with_unfolding_all decide⟩).battery ∧
    (resetState.vehicles.get ⟨0, by with_unfolding_all decide⟩).battery ≤ 100 :=
  C2_battery_within_bounds.1 [] (fun p hp => absurd hp (by simp)) _
    (List.get_mem _ _ _)

/-- No moving vehicle passes the platoon proximity check during the tick
taken from state `s` under mode `m`. -/
def NoPlatoonTick (m : Mode) (s : SimState) : Prop :=
  ∀ v ∈ s.vehicles, v.status = VStatus.moving → movingPlat m s.vehicles v = false

/-- No platooning occurs anywhere along a trace run from `s`. -/
def PlatoonFreeFrom (s : SimState) : List (Mode × Rng) → Prop
  | [] => True
  | (m, r) :: tr => NoPlatoonTick m s ∧ PlatoonFreeFrom (tick m r s) tr

theorem stepVehicleA_energy_eq (a : AIState) (mode : Mode) (fleet : List Vehicle)
    (stations : List Station) (rA : ℚ) {v : Vehicle}
    (hmov : v.status = VStatus.moving) (hplat : movingPlat mode fleet v = false) :
    (stepVehicleA a mode fleet stations rA v).2.energyBaseline =
      (stepVehicleA a mode fleet stations rA v).2.energy := by
  rw [stepVehicleA_moving a mode fleet stations rA hmov]
  dsimp only [movingResult]
  unfold movingEnergyBaseline movingEnergy movingDrag
  rw [hplat]
  rfl

theorem tick_energy_eq {m : Mode} {r : Rng} {s : SimState}
    (h : NoPlatoonTick m s) :
    ((tickDeltas m r s).map VDelta.energyBaseline).sum =
      ((tickDeltas m r s).map VDelta.energy).sum := by
  unfold tickDeltas
  rw [List.map_map, List.map_map]
  congr 1
  apply List.map_congr_left
  intro v hv
  simp only [Function.comp_apply]
  unfold stepVehicle
  cases hst : v.status with
  | charging =>
    rw [stepVehicleA_charging _ _ _ _ _ hst]
  | moving =>
    exact stepVehicleA_energy_eq _ _ _ _ _ hst (h v hv hst)

theorem runFrom_energy_eq : ∀ (tr : List (Mode × Rng)) (s : SimState),
    PlatoonFreeFrom s tr →
    (runFrom s tr).metrics.totalEnergyBaseline - (runFrom s tr).metrics.totalEnergy =
      s.metrics.totalEnergyBaseline - s.metrics.totalEnergy := by
  intro tr
  induction tr with
  | nil => intro s _; rfl
  | cons p tr ih =>
    intro s hs
    obtain ⟨m, r⟩ := p
    obtain ⟨h1, h2⟩ := hs
    have := ih (tick m r s) h2
    rw [show runFrom s ((m, r) :: tr) = runFrom (tick m r s) tr from rfl, this,
      tick_metrics]
    dsimp only
    rw [tick_energy_eq h1]
    ring

/-- C1: dual-track energy accounting.  On each moving tick the
counterfactual draw is the same `energyOf` power formula at the same
velocity, passenger-mass factor and base power as the actual draw,
differing only in unconditionally using the high drag coefficient `0.8`;
the vehicle's battery is decremented by the actual draw only.  Over every
run the accumulated counterfactual dominates the actual total, with
equality whenever no vehicle ever platooned. -/
theorem C1_dual_track_accounting :
    (∀ (a : AIState) (mode : Mode) (fleet : List Vehicle)
        (stations : List Station) (rA : ℚ) (v : Vehicle),
      v.status = VStatus.moving →
      (stepVehicleA a mode fleet stations rA v).2.energy =
        energyOf (movingDrag mode fleet v) (movingVel mode fleet v) (1/2)
          (massFactorOf v) ∧
      (stepVehicleA a mode fleet stations rA v).2.energyBaseline =
        energyOf (8/10) (movingVel mode fleet v) (1/2) (massFactorOf v) ∧
      (stepVehicleA a mode fleet stations rA v).1.battery =
        max 0 (v.battery - movingEnergy mode fleet v)) ∧
    (∀ tr : List (Mode × Rng), ValidTrace tr →
      (run tr).metrics.totalEnergy ≤ (run tr).metrics.totalEnergyBaseline) ∧
    (∀ tr : List (Mode × Rng), PlatoonFreeFrom resetState tr →
      (run tr).metrics.totalEnergyBaseline = (run tr).metrics.totalEnergy) := by
  refine ⟨?_, ?_, ?_⟩
  · intro a mode fleet stations rA v h
    rw [stepVehicleA_moving a mode fleet stations rA h]
    exact ⟨rfl, rfl, rfl⟩
  · intro tr htr
    exact (run_inv htr).2.2.2.1
  · intro tr htr
    have h := runFrom_energy_eq tr resetState htr
    have h0 : resetState.metrics.totalEnergyBaseline -
        resetState.metrics.totalEnergy = 0 := by norm_num [resetState]
    rw [h0] at h
    unfold run
    linarith [h]

/-- C1 witness: the first reset vehicle's tick (adaptive mode, solo
fleet) instantiates the per-tick formulae, and the one-tick baseline run
instantiates both accumulator statements. -/
theorem C1_dual_track_accounting_witness :
    ((stepVehicleA AIState.CRUISE Mode.rl [] [] 0
        (resetState.vehicles.get ⟨0, by with_unfolding_all decide⟩)).2.energy =
      energyOf (movingDrag Mode.rl []
          (resetState.vehicles.get ⟨0, by with_unfolding_all decide⟩))
        (movingVel Mode.rl []
          (resetState.vehicles.get ⟨0, by with_unfolding_all decide⟩)) (1/2)
        (massFactorOf
          (resetState.vehicles.get ⟨0, by with_unfolding_all decide⟩))) ∧
    (run [(Mode.baseline, ⟨1/2, fun _ => 1/2, fun _ => 1/2⟩)]).metrics.totalEnergy ≤
      (run [(Mode.baseline, ⟨1/2, fun _ => 1/2, fun _ => 1/2⟩)]).metrics.totalEnergyBaseline ∧
    (run [(Mode.baseline, ⟨1/2, fun _ => 1/2, fun _ => 1/2⟩)]).metrics.totalEnergyBaseline =
      (run [(Mode.baseline, ⟨1/2, fun _ => 1/2, fun _ => 1/2⟩)]).metrics.totalEnergy := by
  refine ⟨(C1_dual_track_accounting.1 AIState.CRUISE Mode.rl [] [] 0 _
      (by with_unfolding_all decide)).1,
    C1_dual_track_accounting.2.1 _ ?_,
    C1_dual_track_accounting.2.2 _ ?_⟩
  · intro p hp
    rw [List.mem_singleton] at hp
    subst hp
    exact ⟨by norm_num, fun i => by norm_num, fun n => by norm_num⟩
  · refine ⟨?_, trivial⟩
    intro v hv hmov
    have : movingPlat Mode.baseline resetState.vehicles v = false := by
      unfold movingPlat isPlatoonOf
      simp
    exact this

/-- C3: boarding resolution.  (i) At an integer-boundary arrival that is
not a forced depot charge and finds a non-empty queue, the boarded count
is exactly `min(queue, capacity − passengers-after-alighting)` computed
against the pre-tick queue, and the same count is registered for the
station and counted as served.  (ii) Each station's committed queue is
the clamped `max 0 (queue − boarded-total)` — hence never negative, and
an exact decrement whenever the total does not exceed the queue — while
its `total_served` grows by exactly the boarded total.  (iii) Along every
run queues stay non-negative, passenger counts stay within capacity, and
the fleet-wide `total_served` accumulator is monotone. -/
theorem C3_boarding_resolution :
    (∀ (a : AIState) (mode : Mode) (fleet : List Vehicle)
        (stations : List Station) (rA : ℚ) (v : Vehicle),
      v.status = VStatus.moving →
      movingCrossed mode fleet v = true →
      movingForced mode fleet v = false →
      0 < stationQueueOf stations (movingStop mode fleet v) →
      (stepVehicleA a mode fleet stations rA v).1.boardedLast =
        min (stationQueueOf stations (movingStop mode fleet v))
          (v.capacity - (v.passengers - alightCount rA v.passengers)) ∧
      (stepVehicleA a mode fleet stations rA v).1.passengers =
        (v.passengers - alightCount rA v.passengers) +
          min (stationQueueOf stations (movingStop mode fleet v))
            (v.capacity - (v.passengers - alightCount rA v.passengers)) ∧
      (stepVehicleA a mode fleet stations rA v).2.served =
        min (stationQueueOf stations (movingStop mode fleet v))
          (v.capacity - (v.passengers - alightCount rA v.passengers)) ∧
      (stepVehicleA a mode fleet stations rA v).2.board =
        some (movingStop mode fleet v,
          min (stationQueueOf stations (movingStop mode fleet v))
            (v.capacity - (v.passengers - alightCount rA v.passengers)))) ∧
    (∀ (m : Mode) (r : Rng) (s : SimState), StateInv s → ValidRng r →
      ∀ st ∈ spawnStep r (tickHour s) s.stations,
        applyBoardingTo (tickDeltas m r s) st ∈ (tick m r s).stations ∧
        (applyBoardingTo (tickDeltas m r s) st).id = st.id ∧
        (applyBoardingTo (tickDeltas m r s) st).queue =
          max 0 (st.queue - boardTotal (tickDeltas m r s) st.id) ∧
        0 ≤ (applyBoardingTo (tickDeltas m r s) st).queue ∧
        (applyBoardingTo (tickDeltas m r s) st).totalServed =
          st.totalServed + boardTotal (tickDeltas m r s) st.id ∧
        st.totalServed ≤ (applyBoardingTo (tickDeltas m r s) st).totalServed ∧
        (boardTotal (tickDeltas m r s) st.id ≤ st.queue →
          (applyBoardingTo (tickDeltas m r s) st).queue =
            st.queue - boardTotal (tickDeltas m r s) st.id)) ∧
    (∀ tr : List (Mode × Rng), ValidTrace tr →
      (∀ st ∈ (run tr).stations, 0 ≤ st.queue) ∧
      (∀ v ∈ (run tr).vehicles, 0 ≤ v.passengers ∧ v.passengers ≤ v.capacity)) ∧
    (∀ (m : Mode) (r : Rng) (s : SimState), StateInv s → ValidRng r →
      s.metrics.totalServed ≤ (tick m r s).metrics.totalServed) := by
  refine ⟨?_, ?_, ?_, ?_⟩
  · intro a mode fleet stations rA v hmov hX hF hq
    rw [stepVehicleA_moving a mode fleet stations rA hmov]
    dsimp only [movingResult]
    simp only [hF, hX, Bool.not_false, Bool.and_true, Bool.true_and, if_true,
      if_false, Bool.false_eq_true, decide_eq_true hq]
    exact ⟨trivial, trivial, trivial, trivial⟩
  · intro m r s hs hr st hst
    have hq0 : 0 ≤ st.queue := spawnStep_queue r (tickHour s) hs.2.1 st hst
    have hd := tickDeltas_inv m r s hs hr
    have hb0 : 0 ≤ boardTotal (tickDeltas m r s) st.id := boardTotal_nonneg hd st.id
    obtain ⟨hid, hqe, hts⟩ := applyBoardingTo_spec (tickDeltas m r s) hq0
    refine ⟨?_, hid, hqe, ?_, hts, by linarith, ?_⟩
    · rw [tick_stations]
      unfold applyBoarding
      exact List.mem_map_of_mem _ hst
    · rw [hqe]
      exact le_max_left _ _
    · intro hle
      rw [hqe, max_eq_right (by linarith)]
  · intro tr htr
    have h := run_inv htr
    exact ⟨h.2.1, fun v hv => ⟨(h.1 v hv).2.2.2.1, (h.1 v hv).2.2.2.2⟩⟩
  · intro m r s hs hr
    rw [tick_metrics]
    dsimp only
    have : (0:ℤ) ≤ ((tickDeltas m r s).map VDelta.served).sum := by
      apply List.sum_nonneg
      intro x hx
      rw [List.mem_map] at hx
      obtain ⟨d, hd', rfl⟩ := hx
      exact (tickDeltas_inv m r s hs hr d hd').2.2.2.2.2.2.2.1
    linarith

/-- C3 witness: a concrete arrival — a vehicle at progress 0.999 crossing
into 莒光樓 (juguang) with one queued passenger — boards exactly
`min(1, 20 − 0) = 1` passenger, and the reset state instantiates the
station/run conjuncts. -/
theorem C3_boarding_resolution_witness :
    (stepVehicleA AIState.CRUISE Mode.baseline []
      [⟨LocId.juguang, 160, 360, false, 9/10, 1, 0⟩] 0
      { id := 0, x := 0, y := 0, progress := 999/1000, battery := 50
        status := VStatus.moving, speed := 0, passengers := 0, capacity := 20
        dragCoeff := 8/10, power := 0, platooning := false
        aiState := AIState.INIT, boardedLast := 0, alightedLast := 0 }).1.boardedLast = 1 ∧
    (∀ st ∈ (run []).stations, 0 ≤ st.queue) := by
  constructor
  · have h := (C3_boarding_resolution.1 AIState.CRUISE Mode.baseline []
      [⟨LocId.juguang, 160, 360, false, 9/10, 1, 0⟩] 0
      { id := 0, x := 0, y := 0, progress := 999/1000, battery := 50
        status := VStatus.moving, speed := 0, passengers := 0, capacity := 20
        dragCoeff := 8/10, power := 0, platooning := false
        aiState := AIState.INIT, boardedLast := 0, alightedLast := 0 }
      rfl (by with_unfolding_all decide) (by with_unfolding_all decide)
      (by with_unfolding_all decide)).1
    rw [h]
    with_unfolding_all decide
  · exact (C3_boarding_resolution.2.2.1 [] (fun p hp => absurd hp (by simp))).1

/-- C4: under the adaptive policy, a moving vehicle that crosses into the
depot waypoint with battery below the 25% policy threshold (which is in
particular below the depot check's 30%) transitions to CHARGING with all
passengers forced off; and a CHARGING vehicle returns to MOVING exactly
when its battery reaches the 95% high-water mark, never earlier. -/
theorem C4_depot_charging :
    (∀ (a : AIState) (fleet : List Vehicle) (stations : List Station)
        (rA : ℚ) (v : Vehicle),
      v.status = VStatus.moving → 0 ≤ v.passengers →
      movingCrossed Mode.rl fleet v = true →
      movingStop Mode.rl fleet v = LocId.depot →
      v.battery < 25 →
      (stepVehicleA a Mode.rl fleet stations rA v).1.status = VStatus.charging ∧
      (stepVehicleA a Mode.rl fleet stations rA v).1.passengers = 0) ∧
    (∀ (a : AIState) (mode : Mode) (fleet : List Vehicle)
        (stations : List Station) (rA : ℚ) (v : Vehicle),
      v.status = VStatus.charging →
      ((stepVehicleA a mode fleet stations rA v).1.status = VStatus.moving ↔
        95 ≤ v.battery + 8/10)) := by
  constructor
  · intro a fleet stations rA v hmov hp0 hX hstop h25
    have h30 : movingBattery1 Mode.rl fleet v < 30 := by
      have := @movingEnergy_nonneg Mode.rl fleet v hp0
      unfold movingBattery1
      linarith
    have hF : movingForced Mode.rl fleet v = true := by
      unfold movingForced
      rw [hX, Bool.true_and]
      exact decide_eq_true ⟨hstop, h30, rfl⟩
    rw [stepVehicleA_moving a Mode.rl fleet stations rA hmov]
    dsimp only [movingResult]
    simp only [hF, Bool.not_true, Bool.and_false, Bool.false_and, if_true,
      if_false, Bool.false_eq_true]
    exact ⟨trivial, trivial⟩
  · intro a mode fleet stations rA v h
    rw [stepVehicleA_charging a mode fleet stations rA h]
    dsimp only
    by_cases hge : v.battery + 8/10 ≥ 95
    · rw [if_pos hge]
      exact ⟨fun _ => hge, fun _ => rfl⟩
    · rw [if_neg hge]
      exact ⟨fun hc => absurd hc (by simp), fun h95 => absurd h95 hge⟩

/-- C4 witness: a vehicle at 24% battery crossing into the depot
(progress 8.999 → 9.003, stop index 9 = depot) starts charging with no
passengers aboard; a charging vehicle at 94% does not resume at 94.8%. -/
theorem C4_depot_charging_witness :
    ((stepVehicleA AIState.CHARGE Mode.rl [] [] 0
      { id := 0, x := 0, y := 0, progress := 8999/1000, battery := 24
        status := VStatus.moving, speed := 0, passengers := 3, capacity := 20
        dragCoeff := 8/10, power := 0, platooning := false
        aiState := AIState.INIT, boardedLast := 0, alightedLast := 0 }).1.status =
      VStatus.charging ∧
     (stepVehicleA AIState.CHARGE Mode.rl [] [] 0
      { id := 0, x := 0, y := 0, progress := 8999/1000, battery := 24
        status := VStatus.moving, speed := 0, passengers := 3, capacity := 20
        dragCoeff := 8/10, power := 0, platooning := false
        aiState := AIState.INIT, boardedLast := 0, alightedLast := 0 }).1.passengers = 0) ∧
    ¬((stepVehicleA AIState.CHARGE Mode.rl [] [] 0
      { id := 1, x := 0, y := 0, progress := 0, battery := 94
        status := VStatus.charging, speed := 0, passengers := 0, capacity := 20
        dragCoeff := 8/10, power := 0, platooning := false
        aiState := AIState.CHARGING, boardedLast := 0, alightedLast := 0 }).1.status =
      VStatus.moving) := by
  constructor
  · exact C4_depot_charging.1 AIState.CHARGE [] [] 0 _ rfl
      (by with_unfolding_all decide) (by with_unfolding_all decide)
      (by with_unfolding_all decide) (by with_unfolding_all decide)
  · intro hmov
    have h := (C4_depot_charging.2 AIState.CHARGE Mode.rl [] [] 0 _ rfl).1 hmov
    norm_num at h

theorem isPlatoonOf_iff (fleet : List Vehicle) (vid : ℕ) (x y : ℚ) :
    isPlatoonOf Mode.rl fleet vid x y = true ↔
      ∃ o ∈ fleet, o.id ≠ vid ∧
        calcDistSq x y o.x o.y < PLATOON_DISTANCE ^ 2 ∧
        calcDistSq x y o.x o.y > 5 ^ 2 := by
  unfold isPlatoonOf
  simp [List.any_eq_true]

/-- C5: platooning.  In adaptive mode a moving vehicle's committed
`is_platooning` flag is true iff some other vehicle's position lies
strictly inside the (5, 70) proximity band around its freshly derived
position; its drag coefficient is the low constant 0.3 exactly when it
platoons and the high constant 0.8 otherwise; two moving vehicles whose
positions lie in the band of each other both platoon with drag 0.3.  In
baseline mode the check is disabled: a moving step always commits
`platooning = false` with drag 0.8, and along any all-baseline run from
reset no vehicle ever has the flag set. -/
theorem C5_platooning :
    (∀ (a : AIState) (fleet : List Vehicle) (stations : List Station)
        (rA : ℚ) (v : Vehicle),
      v.status = VStatus.moving →
      ((stepVehicleA a Mode.rl fleet stations rA v).1.platooning = true ↔
        ∃ o ∈ fleet, o.id ≠ v.id ∧
          calcDistSq (positionAt v.progress).1 (positionAt v.progress).2 o.x o.y <
            PLATOON_DISTANCE ^ 2 ∧
          calcDistSq (positionAt v.progress).1 (positionAt v.progress).2 o.x o.y >
            5 ^ 2)) ∧
    (∀ (a : AIState) (mode : Mode) (fleet : List Vehicle)
        (stations : List Station) (rA : ℚ) (v : Vehicle),
      v.status = VStatus.moving →
      (stepVehicleA a mode fleet stations rA v).1.dragCoeff =
        (if (stepVehicleA a mode fleet stations rA v).1.platooning
         then 3/10 else 8/10)) ∧
    (∀ (a : AIState) (fleet : List Vehicle) (stations : List Station)
        (rA : ℚ) (vA vB : Vehicle),
      vA.status = VStatus.moving → vB.status = VStatus.moving →
      vB ∈ fleet → vA ∈ fleet → vB.id ≠ vA.id → vA.id ≠ vB.id →
      calcDistSq (positionAt vA.progress).1 (positionAt vA.progress).2 vB.x vB.y <
        PLATOON_DISTANCE ^ 2 →
      calcDistSq (positionAt vA.progress).1 (positionAt vA.progress).2 vB.x vB.y >
        5 ^ 2 →
      calcDistSq (positionAt vB.progress).1 (positionAt vB.progress).2 vA.x vA.y <
        PLATOON_DISTANCE ^ 2 →
      calcDistSq (positionAt vB.progress).1 (positionAt vB.progress).2 vA.x vA.y >
        5 ^ 2 →
      (stepVehicleA a Mode.rl fleet stations rA vA).1.platooning = true ∧
      (stepVehicleA a Mode.rl fleet stations rA vB).1.platooning = true ∧
      (stepVehicleA a Mode.rl fleet stations rA vA).1.dragCoeff = 3/10 ∧
      (stepVehicleA a Mode.rl fleet stations rA vB).1.dragCoeff = 3/10) ∧
    (∀ (a : AIState) (fleet : List Vehicle) (stations : List Station)
        (rA : ℚ) (v : Vehicle),
      v.status = VStatus.moving →
      (stepVehicleA a Mode.baseline fleet stations rA v).1.platooning = false ∧
      (stepVehicleA a Mode.baseline fleet stations rA v).1.dragCoeff = 8/10) ∧
    (∀ tr : List (Mode × Rng), (∀ p ∈ tr, p.1 = Mode.baseline) →
      ∀ v ∈ (run tr).vehicles, v.platooning = false) := by
  have hplat : ∀ (a : AIState) (mode : Mode) (fleet : List Vehicle)
      (stations : List Station) (rA : ℚ) (v : Vehicle),
      v.status = VStatus.moving →
      (stepVehicleA a mode fleet stations rA v).1.platooning =
        movingPlat mode fleet v := by
    intro a mode fleet stations rA v h
    rw [stepVehicleA_moving a mode fleet stations rA h]
    rfl
  have hdrag : ∀ (a : AIState) (mode : Mode) (fleet : List Vehicle)
      (stations : List Station) (rA : ℚ) (v : Vehicle),
      v.status = VStatus.moving →
      (stepVehicleA a mode fleet stations rA v).1.dragCoeff =
        (if movingPlat mode fleet v then 3/10 else 8/10) := by
    intro a mode fleet stations rA v h
    rw [stepVehicleA_moving a mode fleet stations rA h]
    rfl
  have hbase : ∀ (fleet : List Vehicle) (v : Vehicle),
      movingPlat Mode.baseline fleet v = false := by
    intro fleet v
    unfold movingPlat isPlatoonOf
    simp
  refine ⟨?_, ?_, ?_, ?_, ?_⟩
  · intro a fleet stations rA v h
    rw [hplat a Mode.rl fleet stations rA v h]
    exact isPlatoonOf_iff fleet v.id _ _
  · intro a mode fleet stations rA v h
    rw [hdrag a mode fleet stations rA v h, hplat a mode fleet stations rA v h]
  · intro a fleet stations rA vA vB hA hB hBm hAm hBA hAB d1 d2 d3 d4
    have pA : movingPlat Mode.rl fleet vA = true := by
      unfold movingPlat
      exact (isPlatoonOf_iff fleet vA.id _ _).2 ⟨vB, hBm, hBA, d1, d2⟩
    have pB : movingPlat Mode.rl fleet vB = true := by
      unfold movingPlat
      exact (isPlatoonOf_iff fleet vB.id _ _).2 ⟨vA, hAm, hAB, d3, d4⟩
    rw [hplat a Mode.rl fleet stations rA vA hA,
      hplat a Mode.rl fleet stations rA vB hB,
      hdrag a Mode.rl fleet stations rA vA hA,
      hdrag a Mode.rl fleet stations rA vB hB, pA, pB]
    exact ⟨rfl, rfl, rfl, rfl⟩
  · intro a fleet stations rA v h
    rw [hplat a Mode.baseline fleet stations rA v h,
      hdrag a Mode.baseline fleet stations rA v h, hbase fleet v]
    exact ⟨rfl, rfl⟩
  · intro tr htr
    suffices h : ∀ (tr : List (Mode × Rng)) (s : SimState),
        (∀ p ∈ tr, p.1 = Mode.baseline) →
        (∀ v ∈ s.vehicles, v.platooning = false) →
        ∀ v ∈ (runFrom s tr).vehicles, v.platooning = false by
      refine h tr resetState htr ?_
      intro v hv
      unfold resetState at hv
      rw [List.mem_map] at hv
      obtain ⟨i, -, rfl⟩ := hv
      rfl
    intro tr
    induction tr with
    | nil => intro s _ hs; exact hs
    | cons p tr ih =>
      intro s htr hs
      obtain ⟨m, r⟩ := p
      have hm : m = Mode.baseline := htr (m, r) (List.mem_cons_self _ _)
      subst hm
      refine ih (tick Mode.baseline r s)
        (fun q hq => htr q (List.mem_cons_of_mem _ hq)) ?_
      rw [tick_vehicles]
      intro v hv
      unfold tickVehicles at hv
      rw [List.mem_map] at hv
      obtain ⟨w, hw, rfl⟩ := hv
      unfold stepVehicle
      cases hst : w.status with
      | charging =>
        rw [stepVehicleA_charging _ _ _ _ _ hst]
        exact hs w hw
      | moving =>
        rw [hplat _ _ _ _ _ _ hst, hbase]

/-- C5 witness: two vehicles at progress 0 and 0.6 on the depot→juguang
segment (53.7 px apart) both platoon with drag 0.3 in adaptive mode, and
the same pair in baseline mode reports no platooning. -/
theorem C5_platooning_witness :
    ((stepVehicleA AIState.CRUISE Mode.rl
      [ { id := 0, x := 120, y := 280, progress := 0, battery := 95
          status := VStatus.moving, speed := 0, passengers := 0, capacity := 20
          dragCoeff := 8/10, power := 0, platooning := false
          aiState := AIState.INIT, boardedLast := 0, alightedLast := 0 }
      , { id := 1, x := 144, y := 328, progress := 6/10, battery := 90
          status := VStatus.moving, speed := 0, passengers := 0, capacity := 20
          dragCoeff := 8/10, power := 0, platooning := false
          aiState := AIState.INIT, boardedLast := 0, alightedLast := 0 } ] [] 0
      { id := 0, x := 120, y := 280, progress := 0, battery := 95
        status := VStatus.moving, speed := 0, passengers := 0, capacity := 20
        dragCoeff := 8/10, power := 0, platooning := false
        aiState := AIState.INIT, boardedLast := 0, alightedLast := 0 }).1.platooning =
      true) ∧
    ((stepVehicleA AIState.BASELINE Mode.baseline
      [ { id := 0, x := 120, y := 280, progress := 0, battery := 95
          status := VStatus.moving, speed := 0, passengers := 0, capacity := 20
          dragCoeff := 8/10, power := 0, platooning := false
          aiState := AIState.INIT, boardedLast := 0, alightedLast := 0 }
      , { id := 1, x := 144, y := 328, progress := 6/10, battery := 90
          status := VStatus.moving, speed := 0, passengers := 0, capacity := 20
          dragCoeff := 8/10, power := 0, platooning := false
          aiState := AIState.INIT, boardedLast := 0, alightedLast := 0 } ] [] 0
      { id := 0, x := 120, y := 280, progress := 0, battery := 95
        status := VStatus.moving, speed := 0, passengers := 0, capacity := 20
        dragCoeff := 8/10, power := 0, platooning := false
        aiState := AIState.INIT, boardedLast := 0, alightedLast := 0 }).1.platooning =
      false ∧
     (stepVehicleA AIState.BASELINE Mode.baseline
      [ { id := 0, x := 120, y := 280, progress := 0, battery := 95
          status := VStatus.moving, speed := 0, passengers := 0, capacity := 20
          dragCoeff := 8/10, power := 0, platooning := false
          aiState := AIState.INIT, boardedLast := 0, alightedLast := 0 }
      , { id := 1, x := 144, y := 328, progress := 6/10, battery := 90
          status := VStatus.moving, speed := 0, passengers := 0, capacity := 20
          dragCoeff := 8/10, power := 0, platooning := false
          aiState := AIState.INIT, boardedLast := 0, alightedLast := 0 } ] [] 0
      { id := 0, x := 120, y := 280, progress := 0, battery := 95
        status := VStatus.moving, speed := 0, passengers := 0, capacity := 20
        dragCoeff := 8/10, power := 0, platooning := false
        aiState := AIState.INIT, boardedLast := 0, alightedLast := 0 }).1.dragCoeff =
      8/10) := by
  constructor
  · exact (C5_platooning.1 AIState.CRUISE _ [] 0 _ rfl).2
      ⟨ { id := 1, x := 144, y := 328, progress := 6/10, battery := 90
          status := VStatus.moving, speed := 0, passengers := 0, capacity := 20
          dragCoeff := 8/10, power := 0, platooning := false
          aiState := AIState.INIT, boardedLast := 0, alightedLast := 0 }
      , by with_unfolding_all decide, by with_unfolding_all decide
      , by with_unfolding_all decide, by with_unfolding_all decide⟩
  · exact C5_platooning.2.2.2.1 AIState.BASELINE _ [] 0 _ rfl

theorem jsMod_add_self (a b : ℚ) (hb : b ≠ 0) : jsMod (a + b) b = jsMod a b := by
  unfold jsMod
  have h : (a + b) / b = a / b + 1 := by
    field_simp
  rw [h, Int.floor_add_one]
  push_cast
  ring

/-- C6: the microgrid signal.  For any interpretation of the JS `sin` /
`exp` curves and any clock time, the net load equals
`max(20, base_load − 0.6·solar)` and so never falls below the floor 20;
the price/status classification is threshold-based on net load (GREEN
with the cheapest price 1.8 below 40, PEAK with the most expensive 6.5
above 80, NORMAL at 3.0 in between, and 1.8 < 3.0 < 6.5); and the whole
signal is a pure function of time-of-day — it is invariant under adding
a full day (1440 minutes) to the clock. -/
theorem C6_microgrid :
    ∀ (M : JsMath) (t : ℚ),
      (gridStateAt M t).load =
        max 20 (baseLoadAt M (hourOfDay t) -
          solarOutputAt M (hourOfDay t) * (6/10)) ∧
      20 ≤ (gridStateAt M t).load ∧
      ((gridStateAt M t).load < 40 →
        (gridStateAt M t).status = GridStatus.GREEN ∧
        (gridStateAt M t).price = 9/5) ∧
      ((gridStateAt M t).load > 80 →
        (gridStateAt M t).status = GridStatus.PEAK ∧
        (gridStateAt M t).price = 13/2) ∧
      (40 ≤ (gridStateAt M t).load → (gridStateAt M t).load ≤ 80 →
        (gridStateAt M t).status = GridStatus.NORMAL ∧
        (gridStateAt M t).price = 3) ∧
      ((9:ℚ)/5 < 3 ∧ (3:ℚ) < 13/2) ∧
      gridStateAt M (t + 1440) = gridStateAt M t := by
  intro M t
  have hper : hourOfDay (t + 1440) = hourOfDay t := by
    unfold hourOfDay
    have h : (t + 1440) / 60 = t / 60 + 24 := by ring
    rw [h]
    exact jsMod_add_self (t / 60) 24 (by norm_num)
  have hldef : (gridStateAt M t).load =
      netLoadOf (baseLoadAt M (hourOfDay t)) (solarOutputAt M (hourOfDay t)) := rfl
  have hsdef : (gridStateAt M t).status =
      gridStatusOf (netLoadOf (baseLoadAt M (hourOfDay t))
        (solarOutputAt M (hourOfDay t))) := rfl
  have hpdef : (gridStateAt M t).price =
      gridPriceOf (netLoadOf (baseLoadAt M (hourOfDay t))
        (solarOutputAt M (hourOfDay t))) := rfl
  refine ⟨rfl, le_max_left _ _, ?_, ?_, ?_, by norm_num, ?_⟩
  · intro hlt
    rw [hldef] at hlt
    rw [hsdef, hpdef]
    unfold gridStatusOf gridPriceOf
    rw [if_pos hlt, if_pos hlt]
    exact ⟨rfl, rfl⟩
  · intro hgt
    rw [hldef] at hgt
    rw [hsdef, hpdef]
    unfold gridStatusOf gridPriceOf
    have h1 : ¬(netLoadOf (baseLoadAt M (hourOfDay t))
        (solarOutputAt M (hourOfDay t)) < 40) := by linarith
    rw [if_neg h1, if_neg h1, if_pos hgt, if_pos hgt]
    exact ⟨rfl, rfl⟩
  · intro h40 h80
    rw [hldef] at h40 h80
    rw [hsdef, hpdef]
    unfold gridStatusOf gridPriceOf
    have h1 : ¬(netLoadOf (baseLoadAt M (hourOfDay t))
        (solarOutputAt M (hourOfDay t)) < 40) := by linarith
    have h2 : ¬(netLoadOf (baseLoadAt M (hourOfDay t))
        (solarOutputAt M (hourOfDay t)) > 80) := by linarith
    rw [if_neg h1, if_neg h1, if_neg h2, if_neg h2]
    exact ⟨rfl, rfl⟩
  · unfold gridStateAt
    rw [hper]

/-- C6 witness: with the all-zero curve interpretation at 08:00
(t = 480), base load is 50, solar 0, net load 50 ∈ [40, 80], so the
status is NORMAL at price 3. -/
theorem C6_microgrid_witness :
    20 ≤ (gridStateAt ⟨fun _ => 0, fun _ => 0, 3⟩ 480).load ∧
    (gridStateAt ⟨fun _ => 0, fun _ => 0, 3⟩ 480).status = GridStatus.NORMAL ∧
    (gridStateAt ⟨fun _ => 0, fun _ => 0, 3⟩ 480).price = 3 := by
  have h := C6_microgrid ⟨fun _ => 0, fun _ => 0, 3⟩ 480
  refine ⟨h.2.1, ?_⟩
  have hn := h.2.2.2.2.1 (by with_unfolding_all decide)
    (by with_unfolding_all decide)
  exact hn

/-- C8: cyclic route-position lookup.  For every non-negative progress
value, the derived position equals the position of `progress mod 10`
(the route cycle length); the current waypoint index is the integer part
mod 10, the successor index is `⌈p⌉ mod 10` — which is `(⌊p⌋ + 1) mod 10`
whenever the fractional part is non-zero — and the fractional part is the
linear-interpolation weight. -/
theorem C8_route_position_cyclic :
    ∀ p : ℚ, 0 ≤ p →
      positionAt p = positionAt (jsMod p 10) ∧
      (p - ⌊p⌋ ≠ 0 → (⌈p⌉ % 10) = ((⌊p⌋ + 1) % 10)) ∧
      positionAt p =
        ((getLoc (ROUTE_SEQUENCE.getD ((⌊p⌋ % 10).toNat) LocId.depot)).x +
          ((getLoc (ROUTE_SEQUENCE.getD ((⌈p⌉ % 10).toNat) LocId.depot)).x -
           (getLoc (ROUTE_SEQUENCE.getD ((⌊p⌋ % 10).toNat) LocId.depot)).x) *
            (p - ⌊p⌋),
         (getLoc (ROUTE_SEQUENCE.getD ((⌊p⌋ % 10).toNat) LocId.depot)).y +
          ((getLoc (ROUTE_SEQUENCE.getD ((⌈p⌉ % 10).toNat) LocId.depot)).y -
           (getLoc (ROUTE_SEQUENCE.getD ((⌊p⌋ % 10).toNat) LocId.depot)).y) *
            (p - ⌊p⌋)) := by
  intro p hp
  have hmod : jsMod p 10 = p - ((10 * ⌊p / 10⌋ : ℤ) : ℚ) := by
    unfold jsMod
    push_cast
    ring
  have hfl : ⌊jsMod p 10⌋ = ⌊p⌋ - 10 * ⌊p / 10⌋ := by
    rw [hmod, Int.floor_sub_int]
  have hcl : ⌈jsMod p 10⌉ = ⌈p⌉ - 10 * ⌊p / 10⌋ := by
    rw [hmod, Int.ceil_sub_int]
  have hflm : ⌊jsMod p 10⌋ % 10 = ⌊p⌋ % 10 := by
    rw [hfl]
    omega
  have hclm : ⌈jsMod p 10⌉ % 10 = ⌈p⌉ % 10 := by
    rw [hcl]
    omega
  have hfr : jsMod p 10 - ⌊jsMod p 10⌋ = p - ⌊p⌋ := by
    rw [hfl, hmod]
    push_cast
    ring
  refine ⟨?_, ?_, rfl⟩
  · unfold positionAt
    dsimp only
    rw [hflm, hclm, hfr]
  · intro hne
    have hfr0 : Int.fract p ≠ 0 := by
      rwa [Int.fract]
    have hcast : (⌈p⌉ : ℚ) = (⌊p⌋ : ℚ) + 1 := by
      rw [Int.ceil_eq_add_one_sub_fract hfr0, Int.fract]
      ring
    have hceil : ⌈p⌉ = ⌊p⌋ + 1 := by
      exact_mod_cast hcast
    rw [hceil]

/-- C8 witness: `position_at(23.5) = position_at(3.5)` (23.5 mod 10). -/
theorem C8_route_position_cyclic_witness :
    positionAt (47/2) = positionAt (jsMod (47/2) 10) ∧
    jsMod (47/2) 10 = 7/2 :=
  ⟨(C8_route_position_cyclic (47/2) (by norm_num)).1,
   by with_unfolding_all decide⟩

/-- C9: the per-tick dispatch action is recorded only in `aiState` and
has no effect on the physical next state.  `stepVehicle` is exactly
`stepVehicleA` applied to the policy's `aiAction` (fixed BASELINE in
baseline mode, CHARGE below 25% in adaptive mode); two runs of the
vehicle update with different actions produce identical deltas and
identical vehicles except for the `aiState` field (which a charging
vehicle overwrites with CHARGING anyway); and the MOVING→CHARGING
transition is decided by the separate depot-arrival check against the
30% threshold, so a vehicle whose policy action was CRUISE (battery in
[25,30) after the draw) still transitions to CHARGING. -/
theorem C9_action_frame_effect :
    (∀ (mode : Mode) (fleet : List Vehicle) (stations : List Station)
        (rA : ℚ) (v : Vehicle),
      stepVehicle mode fleet stations rA v =
        stepVehicleA (jsAiAction mode v.battery) mode fleet stations rA v) ∧
    (∀ b : ℚ, jsAiAction Mode.baseline b = AIState.BASELINE ∧
      (jsAiAction Mode.rl b = AIState.CHARGE ↔ b < 25)) ∧
    (∀ (a1 a2 : AIState) (mode : Mode) (fleet : List Vehicle)
        (stations : List Station) (rA : ℚ) (v : Vehicle),
      (stepVehicleA a1 mode fleet stations rA v).2 =
        (stepVehicleA a2 mode fleet stations rA v).2 ∧
      (stepVehicleA a1 mode fleet stations rA v).1 =
        { (stepVehicleA a2 mode fleet stations rA v).1 with
          aiState := (stepVehicleA a1 mode fleet stations rA v).1.aiState } ∧
      (v.status = VStatus.charging →
        (stepVehicleA a1 mode fleet stations rA v).1.aiState =
          AIState.CHARGING) ∧
      (v.status = VStatus.moving →
        (stepVehicleA a1 mode fleet stations rA v).1.aiState = a1)) ∧
    (∀ (fleet : List Vehicle) (stations : List Station) (rA : ℚ) (v : Vehicle),
      v.status = VStatus.moving →
      movingCrossed Mode.rl fleet v = true →
      movingStop Mode.rl fleet v = LocId.depot →
      25 ≤ v.battery →
      movingBattery1 Mode.rl fleet v < 30 →
      jsAiAction Mode.rl v.battery = AIState.CRUISE ∧
      (stepVehicle Mode.rl fleet stations rA v).1.status = VStatus.charging) := by
  refine ⟨fun _ _ _ _ _ => rfl, ?_, ?_, ?_⟩
  · intro b
    refine ⟨rfl, ?_⟩
    unfold jsAiAction
    rw [if_neg (by simp)]
    by_cases hb : b < 25
    · rw [if_pos hb]
      exact ⟨fun _ => hb, fun _ => rfl⟩
    · rw [if_neg hb]
      exact ⟨fun h => absurd h (by simp), fun h => absurd h hb⟩
  · intro a1 a2 mode fleet stations rA v
    cases hst : v.status with
    | charging =>
      rw [stepVehicleA_charging a1 mode fleet stations rA hst,
        stepVehicleA_charging a2 mode fleet stations rA hst]
      exact ⟨rfl, rfl, fun _ => rfl, fun h => absurd h (by simp [hst])⟩
    | moving =>
      rw [stepVehicleA_moving a1 mode fleet stations rA hst,
        stepVehicleA_moving a2 mode fleet stations rA hst]
      exact ⟨rfl, rfl, fun h => absurd h (by simp [hst]), fun _ => rfl⟩
  · intro fleet stations rA v hmov hX hstop h25 h30
    have hcruise : jsAiAction Mode.rl v.battery = AIState.CRUISE := by
      unfold jsAiAction
      rw [if_neg (by simp), if_neg (by linarith)]
    have hF : movingForced Mode.rl fleet v = true := by
      unfold movingForced
      rw [hX, Bool.true_and]
      exact decide_eq_true ⟨hstop, h30, rfl⟩
    refine ⟨hcruise, ?_⟩
    unfold stepVehicle
    rw [stepVehicleA_moving _ Mode.rl fleet stations rA hmov]
    dsimp only [movingResult]
    rw [if_pos hF]

/-- C9 witness: a vehicle at 27% battery (policy action CRUISE) crossing
into the depot still transitions to CHARGING, because the depot check
uses the 30% threshold. -/
theorem C9_action_frame_effect_witness :
    jsAiAction Mode.rl
      ({ id := 0, x := 0, y := 0, progress := 8999/1000, battery := 27
         status := VStatus.moving, speed := 0, passengers := 0, capacity := 20
         dragCoeff := 8/10, power := 0, platooning := false
         aiState := AIState.INIT, boardedLast := 0,
         alightedLast := 0 } : Vehicle).battery = AIState.CRUISE ∧
    (stepVehicle Mode.rl [] [] 0
      { id := 0, x := 0, y := 0, progress := 8999/1000, battery := 27
        status := VStatus.moving, speed := 0, passengers := 0, capacity := 20
        dragCoeff := 8/10, power := 0, platooning := false
        aiState := AIState.INIT, boardedLast := 0,
        alightedLast := 0 }).1.status = VStatus.charging :=
  C9_action_frame_effect.2.2.2 [] [] 0 _ rfl
    (by with_unfolding_all decide) (by with_unfolding_all decide)
    (by with_unfolding_all decide) (by with_unfolding_all decide)

/-- A maximal-demand tick draw: the global spawn gate and every station
gate pass, and no passenger alights. -/
def rngAllSpawn : Rng := ⟨0, fun _ => 0, fun _ => 0⟩

/-- Fifty baseline ticks under `rngAllSpawn`: vehicle 3 reaches 翟山坑道
(zhaishan) at tick 50 and boards 20 passengers while the fleet has
consumed ≈0.35 energy units, so `totalServed / totalEnergy ≈ 57.8`. -/
def kpiTrace : List (Mode × Rng) :=
  List.replicate 50 (Mode.baseline, rngAllSpawn)

set_option maxRecDepth 400000 in
/-- C7 counterexample: the energy-efficiency ratio KPI
(`totalServed / totalEnergy`) is *not* within [0,1] (nor [0,100] read as
a percentage): after the 50-tick run `kpiTrace` — a valid run — it
exceeds 1 (its value is 62500000/1081761 ≈ 57.8, i.e. ≈ 5778%). -/
theorem C7_ratio_counterexample :
    ValidTrace kpiTrace ∧ 1 < efficiencyKPI (run kpiTrace).metrics := by
  constructor
  · intro p hp
    unfold kpiTrace at hp
    rw [List.eq_of_mem_replicate hp]
    exact ⟨⟨by norm_num [rngAllSpawn], by norm_num [rngAllSpawn]⟩,
      fun i => ⟨by norm_num [rngAllSpawn], by norm_num [rngAllSpawn]⟩,
      fun n => ⟨by norm_num [rngAllSpawn], by norm_num [rngAllSpawn]⟩⟩
  · with_unfolding_all decide

/-- C7 (amended): the platoon-rate and empty-rate KPIs are always within
[0,100] percent; the efficiency and wait KPIs are always non-negative
(but not bounded by 1); every ratio KPI is exactly 0 when its denominator
accumulator is 0 (the zero-test guard, so no division by zero is ever
evaluated); and `platoon_distance ≤ total_distance` and
`empty_distance ≤ total_distance` hold after any sequence of ticks. -/
theorem C7_ratio_kpis_amended :
    ∀ tr : List (Mode × Rng), ValidTrace tr →
      (0 ≤ platoonRatePct (run tr).metrics ∧
        platoonRatePct (run tr).metrics ≤ 100) ∧
      (0 ≤ emptyRatePct (run tr).metrics ∧
        emptyRatePct (run tr).metrics ≤ 100) ∧
      0 ≤ efficiencyKPI (run tr).metrics ∧
      0 ≤ waitKPI (run tr).metrics ∧
      ((run tr).metrics.totalDist = 0 →
        platoonRatePct (run tr).metrics = 0 ∧
        emptyRatePct (run tr).metrics = 0) ∧
      ((run tr).metrics.totalEnergy = 0 →
        efficiencyKPI (run tr).metrics = 0) ∧
      ((run tr).metrics.totalServed = 0 → waitKPI (run tr).metrics = 0) ∧
      (run tr).metrics.platoonDist ≤ (run tr).metrics.totalDist ∧
      (run tr).metrics.emptyDist ≤ (run tr).metrics.totalDist := by
  intro tr htr
  obtain ⟨-, -, hE, hEB, hTS, hTD, hPD, hPDle, hED, hEDle, hWT⟩ := run_inv htr
  refine ⟨?_, ?_, ?_, ?_, ?_, ?_, ?_, hPDle, hEDle⟩
  · unfold platoonRatePct
    split_ifs with h
    · constructor
      · positivity
      · have : (run tr).metrics.platoonDist / (run tr).metrics.totalDist ≤ 1 :=
          (div_le_one h).2 hPDle
        linarith
    · norm_num
  · unfold emptyRatePct
    split_ifs with h
    · constructor
      · positivity
      · have : (run tr).metrics.emptyDist / (run tr).metrics.totalDist ≤ 1 :=
          (div_le_one h).2 hEDle
        linarith
    · norm_num
  · unfold efficiencyKPI
    split_ifs with h
    · have : (0:ℚ) ≤ ((run tr).metrics.totalServed : ℚ) := by exact_mod_cast hTS
      positivity
    · norm_num
  · unfold waitKPI
    split_ifs with h
    · have h' : (0:ℚ) < ((run tr).metrics.totalServed : ℚ) := by exact_mod_cast h
      positivity
    · norm_num
  · intro h0
    unfold platoonRatePct emptyRatePct
    rw [if_neg (by rw [h0]; norm_num), if_neg (by rw [h0]; norm_num)]
    exact ⟨rfl, rfl⟩
  · intro h0
    unfold efficiencyKPI
    rw [if_neg (by rw [h0]; norm_num)]
  · intro h0
    unfold waitKPI
    rw [if_neg (by rw [h0]; norm_num)]

/-- C7 amended-claim witness: the empty run instantiates every conjunct
(all accumulators are 0, all KPIs evaluate to the guard value 0). -/
theorem C7_ratio_kpis_amended_witness :
    platoonRatePct (run []).metrics = 0 ∧
    efficiencyKPI (run []).metrics = 0 := by
  have h := C7_ratio_kpis_amended [] (fun p hp => absurd hp (by simp))
  exact ⟨(h.2.2.2.2.1 (by with_unfolding_all decide)).1,
    h.2.2.2.2.2.1 (by with_unfolding_all decide)⟩
